import Mathlib

/-! Interrupt simulator: descriptor table, dispatcher, trace ring, statistics

A shallow embedding of `interrupt_simulator.c` / `interrupt_simulator.h`.

* The global variables of the program are the fields of `Sys`; every C function
  becomes a function on `Sys` (state passing), returning its C result next to the
  new state when it has one.
* Readings of the environment (the text written by `get_timestamp`, `time(NULL)`,
  the two `clock_gettime` readings) are explicit arguments.
* A function pointer is an `isr_ptr`; calling it runs the code an interpretation
  `exec` assigns to it. `NULL` is `none`.
* C strings are the byte lists before the terminating NUL. `unsigned long` is a
  `Nat` reduced modulo `2 ^ 64`. The `int` counters (`call_count`, `timer_counter`) are
  `Int` values incremented with the 32-bit two's-complement wrap-around the compiled
  program shows (`int_wrap`); the other `int`, `long` and `time_t` values are `Int`, with
  no overflow in the expressions they occur in. `double` is modelled by exact
  rationals.
* The mutexes are not modelled: every function is run to completion. The sections
  the program runs under `idt_mutex` are separate definitions (`register_isr_locked`,
  `unregister_isr_locked`, `dispatch_begin`, `dispatch_end`), and the functions are
  built from them.
-/

namespace InterruptSimulator

/-! ## C strings and formatting -/

/-- A C string: its bytes up to, and without, the terminating NUL. -/
abbrev CStr := List UInt8

/-- A string literal of the source, as bytes (UTF-8, as in the source file). -/
def cstr (s : String) : CStr := s.toUTF8.data.toList

/-- The conversion `%d`. -/
def fmt_d (n : Int) : CStr := cstr (toString n)

/-- The conversion `%lu`. -/
def fmt_lu (n : Nat) : CStr := cstr (toString n)

/-- The string left in `dst` by `strncpy(dst, src, n); dst[n] = 0`. -/
def strncpy (src : CStr) (n : Nat) : CStr := src.take n

/-- The string left in a buffer of `size` bytes by `snprintf`, given the fully
formatted text. -/
def snprintf (size : Nat) (formatted : CStr) : CStr := formatted.take (size - 1)

/-! ## Constants of `interrupt_simulator.h` -/

abbrev MAX_INTERRUPTS : Nat := 16
def MAX_TRACE_LINES : Int := 100
def MAX_TRACE_MSG_LEN : Nat := 256
def MAX_DESCRIPTION_LEN : Nat := 64
def IRQ_TIMER : Int := 0
def IRQ_KEYBOARD : Int := 1
def SUCCESS : Int := 0
def ERROR_INVALID_IRQ : Int := -1
def ERROR_ISR_EXECUTING : Int := -2
def ULONG_MOD : Nat := 2 ^ 64
def INT_MAX : Int := 2147483647
def INT_MIN : Int := -2147483648

/-- The value a C `int` holds after an arithmetic result `x`: the result when it is
within `[INT_MIN, INT_MAX]`, and otherwise its 32-bit two's-complement wrap-around, as
the compiled program computes `INT_MAX + 1 = INT_MIN`. -/
def int_wrap (x : Int) : Int := (x + 2147483648) % 4294967296 - 2147483648

/-- The value of an `int` counter after `n` increments `++` from `base`. -/
def count_after (base : Int) : Nat → Int
  | 0 => base
  | n + 1 => int_wrap (count_after base n + 1)

def IS_VALID_IRQ (irq : Int) : Bool := decide (irq ≥ 0) && decide (irq < (MAX_INTERRUPTS : Int))

/-! ## Data model -/

inductive irq_state_t where
  | IRQ_STATE_FREE
  | IRQ_STATE_REGISTERED
  | IRQ_STATE_EXECUTING
deriving DecidableEq, Repr

inductive log_level_t where
  | LOG_LEVEL_SILENT
  | LOG_LEVEL_USER_ONLY
  | LOG_LEVEL_VERBOSE
deriving DecidableEq, Repr

open irq_state_t log_level_t

/-- A function pointer `void (*)(int)` other than `NULL`. -/
abbrev isr_ptr := Nat

structure irq_descriptor_t where
  isr : Option isr_ptr
  state : irq_state_t
  call_count : Int
  last_call : Int
  total_execution_time : Nat
  description : CStr
deriving DecidableEq

structure trace_entry_t where
  timestamp : CStr
  event : CStr
  irq_num : Int
deriving DecidableEq

structure system_stats_t where
  total_interrupts : Nat
  timer_interrupts : Nat
  keyboard_interrupts : Nat
  custom_interrupts : Nat
  average_response_time : ℚ
  system_start_time : Int
deriving DecidableEq

structure timespec where
  tv_sec : Int
  tv_nsec : Int
deriving DecidableEq

/-- The array `idt[MAX_INTERRUPTS]`. -/
abbrev idt_t := Fin MAX_INTERRUPTS → irq_descriptor_t

/-- The global variables, and the text sent to standard output (one element for
each `printf`). `trace_log` is addressed by the C `int` used as subscript; the
array itself is the slots `0 .. 99`. -/
structure Sys where
  idt : idt_t
  trace_log : Int → trace_entry_t
  trace_index : Int
  timer_counter : Int
  stats : system_stats_t
  current_log_level : log_level_t
  show_timer_logs : Int
  stdout : List CStr

/-- The globals as the program image initialises them, before `main` runs. -/
def boot : Sys where
  idt := fun _ => ⟨none, IRQ_STATE_FREE, 0, 0, 0, []⟩
  trace_log := fun _ => ⟨[], [], 0⟩
  trace_index := 0
  timer_counter := 0
  stats := ⟨0, 0, 0, 0, 0, 0⟩
  current_log_level := LOG_LEVEL_USER_ONLY
  show_timer_logs := 0
  stdout := []

def printf (text : CStr) (s : Sys) : Sys := { s with stdout := s.stdout ++ [text] }

/-! ## Trace log -/

/-- The section the four trace writers run under `trace_mutex`: fill the slot at
`trace_index` and advance the index. `ts` is the text `get_timestamp` writes. -/
def trace_store (ts event : CStr) (irq_num : Int) (s : Sys) : Sys :=
  { s with
    trace_log := Function.update s.trace_log s.trace_index
      { timestamp := ts, event := strncpy event (MAX_TRACE_MSG_LEN - 1), irq_num := irq_num }
    trace_index := Int.tmod (s.trace_index + 1) MAX_TRACE_LINES }

/-- The slot `(trace_index - 1 + MAX_TRACE_LINES) % MAX_TRACE_LINES` the printing
code reads the timestamp from. -/
def last_slot (s : Sys) : Int := Int.tmod (s.trace_index - 1 + MAX_TRACE_LINES) MAX_TRACE_LINES

def add_trace (ts event : CStr) (s : Sys) : Sys :=
  let s1 := trace_store ts event (-1) s
  printf (cstr "[" ++ (s1.trace_log (last_slot s1)).timestamp ++ cstr "] " ++ event ++ cstr "\n") s1

def add_trace_with_irq (ts event : CStr) (irq_num : Int) (s : Sys) : Sys :=
  let s1 := trace_store ts event irq_num s
  printf (cstr "[" ++ (s1.trace_log (last_slot s1)).timestamp ++ cstr "] " ++ event ++ cstr "\n") s1

def add_trace_silent (ts event : CStr) (s : Sys) : Sys :=
  trace_store ts event (-1) s

def add_trace_with_irq_silent (ts event : CStr) (irq_num : Int) (s : Sys) : Sys :=
  trace_store ts event irq_num s

def set_log_level (level : log_level_t) (s : Sys) : Sys :=
  let level_name : CStr := match level with
    | LOG_LEVEL_SILENT => cstr "SILENCIOSO"
    | LOG_LEVEL_USER_ONLY => cstr "SOLO USUARIO"
    | LOG_LEVEL_VERBOSE => cstr "VERBOSE"
  printf (cstr "Nivel de logging cambiado a: " ++ level_name ++ cstr "\n")
    { s with current_log_level := level }

def toggle_timer_logs (s : Sys) : Sys :=
  let s1 := { s with show_timer_logs := if s.show_timer_logs = 0 then 1 else 0 }
  printf (cstr "Logs del timer: "
      ++ (if s1.show_timer_logs ≠ 0 then cstr "HABILITADOS" else cstr "DESHABILITADOS")
      ++ cstr "\n") s1

def add_trace_smart (ts event : CStr) (irq_num : Int) (is_timer_related : Int) (s : Sys) : Sys :=
  let s1 := if irq_num ≥ 0 then add_trace_with_irq_silent ts event irq_num s
            else add_trace_silent ts event s
  let should_print : Int := match s1.current_log_level with
    | LOG_LEVEL_SILENT => 0
    | LOG_LEVEL_USER_ONLY => if is_timer_related ≠ 0 then s1.show_timer_logs else 1
    | LOG_LEVEL_VERBOSE => 1
  if should_print ≠ 0 then
    if irq_num ≥ 0 then
      printf (cstr "[" ++ (s1.trace_log (last_slot s1)).timestamp ++ cstr "] [IRQ"
        ++ fmt_d irq_num ++ cstr "] " ++ event ++ cstr "\n") s1
    else
      printf (cstr "[" ++ (s1.trace_log (last_slot s1)).timestamp ++ cstr "] "
        ++ event ++ cstr "\n") s1
  else s1

/-! ## Descriptor table -/

def validate_irq_num (irq_num : Int) : Int :=
  if IS_VALID_IRQ irq_num then SUCCESS else ERROR_INVALID_IRQ

/-- The element `idt[irq_num]` for a subscript that passed `IS_VALID_IRQ`; the code
subscripts the table only behind that check. -/
def idt_slot (irq_num : Int) : Fin MAX_INTERRUPTS := Fin.ofNat irq_num.toNat

def is_irq_available (irq_num : Int) (s : Sys) : Int :=
  if !IS_VALID_IRQ irq_num then 0
  else if (s.idt (idt_slot irq_num)).state = IRQ_STATE_FREE then 1 else 0

/-- The text `"IRQ %d - No asignado"` left in the 64-byte description. -/
def placeholder (i : Int) : CStr :=
  snprintf MAX_DESCRIPTION_LEN (cstr "IRQ " ++ fmt_d i ++ cstr " - No asignado")

/-- The table the loop of `init_idt` leaves. -/
def init_idt_table : idt_t := fun i =>
  { isr := none, state := IRQ_STATE_FREE, call_count := 0, last_call := 0,
    total_execution_time := 0, description := placeholder (i.val : Int) }

def init_idt (ts : CStr) (s : Sys) : Sys :=
  add_trace ts (cstr "IDT inicializada con éxito") { s with idt := init_idt_table }

/-- Here `now` is the reading `time(NULL)`. -/
def init_system_stats (now : Int) (s : Sys) : Sys :=
  { s with stats := ⟨0, 0, 0, 0, 0, now⟩ }

def update_stats (irq_num : Int) (execution_time : Nat) (s : Sys) : Sys :=
  let st0 := s.stats
  let st1 := { st0 with total_interrupts := (st0.total_interrupts + 1) % ULONG_MOD }
  let st2 :=
    if irq_num = IRQ_TIMER then
      { st1 with timer_interrupts := (st1.timer_interrupts + 1) % ULONG_MOD }
    else if irq_num = IRQ_KEYBOARD then
      { st1 with keyboard_interrupts := (st1.keyboard_interrupts + 1) % ULONG_MOD }
    else
      { st1 with custom_interrupts := (st1.custom_interrupts + 1) % ULONG_MOD }
  let st3 :=
    if st2.total_interrupts > 0 then
      { st2 with average_response_time :=
          (st2.average_response_time * ((st2.total_interrupts - 1 : Nat) : ℚ)
            + (execution_time : ℚ)) / (st2.total_interrupts : ℚ) }
    else st2
  { s with stats := st3 }

/-- The section of `register_isr` under `idt_mutex`; `none` when the line is
executing and nothing is written. -/
def register_isr_locked (i : Fin MAX_INTERRUPTS) (isr_function : Option isr_ptr)
    (description : CStr) (idt : idt_t) : Option idt_t :=
  if (idt i).state = IRQ_STATE_EXECUTING then none
  else some (Function.update idt i
    { idt i with
      isr := isr_function
      state := IRQ_STATE_REGISTERED
      call_count := 0
      total_execution_time := 0
      description := strncpy description (MAX_DESCRIPTION_LEN - 1) })

def register_isr (ts : CStr) (irq_num : Int) (isr_function : Option isr_ptr)
    (description : CStr) (s : Sys) : Int × Sys :=
  if validate_irq_num irq_num ≠ SUCCESS then
    (ERROR_INVALID_IRQ, add_trace ts (cstr "Error: Número de IRQ fuera de rango") s)
  else
    match register_isr_locked (idt_slot irq_num) isr_function description s.idt with
    | none =>
      (ERROR_ISR_EXECUTING,
        add_trace ts (cstr "Advertencia: No se puede registrar ISR mientras se ejecuta") s)
    | some idt1 =>
      (SUCCESS,
        add_trace_with_irq ts
          (snprintf MAX_TRACE_MSG_LEN
            (cstr "ISR registrada para IRQ " ++ fmt_d irq_num ++ cstr ": " ++ description))
          irq_num { s with idt := idt1 })

/-- The section of `unregister_isr` under `idt_mutex`; `none` when the line is
executing and nothing is written. -/
def unregister_isr_locked (i : Fin MAX_INTERRUPTS) (irq_num : Int) (idt : idt_t) :
    Option idt_t :=
  if (idt i).state = IRQ_STATE_EXECUTING then none
  else some (Function.update idt i
    { idt i with
      isr := none
      state := IRQ_STATE_FREE
      call_count := 0
      total_execution_time := 0
      description := placeholder irq_num })

def unregister_isr (ts : CStr) (irq_num : Int) (s : Sys) : Int × Sys :=
  if validate_irq_num irq_num ≠ SUCCESS then
    (ERROR_INVALID_IRQ, add_trace ts (cstr "Error: Número de IRQ fuera de rango") s)
  else
    match unregister_isr_locked (idt_slot irq_num) irq_num s.idt with
    | none =>
      (ERROR_ISR_EXECUTING,
        add_trace ts (cstr "Error: No se puede desregistrar ISR mientras se ejecuta") s)
    | some idt1 =>
      (SUCCESS,
        add_trace_with_irq ts
          (snprintf MAX_TRACE_MSG_LEN (cstr "ISR desregistrada para IRQ " ++ fmt_d irq_num))
          irq_num { s with idt := idt1 })

/-! ## Dispatcher -/

/-- The value of `execution_time`: the `long` expression
`(end.tv_sec - start.tv_sec) * 1000000 + (end.tv_nsec - start.tv_nsec) / 1000`
(C division truncates) converted to `unsigned long`. -/
def elapsed_us (start_time end_time : timespec) : Nat :=
  (((end_time.tv_sec - start_time.tv_sec) * 1000000
      + Int.tdiv (end_time.tv_nsec - start_time.tv_nsec) 1000) % (ULONG_MOD : Int)).toNat

/-- What one call of `dispatch_interrupt` reads from its environment: the text of
`get_timestamp` for the first and for the closing trace entry, `time(NULL)`, and
the two `clock_gettime` readings around the handler. -/
structure dispatch_clock where
  ts_first : CStr
  now : Int
  start_time : timespec
  end_time : timespec
  ts_last : CStr

/-- The first section of `dispatch_interrupt` under `idt_mutex`: `none` when the
line is not dispatchable and nothing is written, otherwise the captured handler
and the table with the line marked executing. -/
def dispatch_begin (now : Int) (i : Fin MAX_INTERRUPTS) (idt : idt_t) :
    Option (isr_ptr × idt_t) :=
  if (idt i).state ≠ IRQ_STATE_REGISTERED then none
  else
    match (idt i).isr with
    | none => none
    | some isr_function =>
      some (isr_function, Function.update idt i
        { idt i with
          state := IRQ_STATE_EXECUTING
          call_count := int_wrap ((idt i).call_count + 1)
          last_call := now })

/-- The second section of `dispatch_interrupt` under `idt_mutex`. -/
def dispatch_end (i : Fin MAX_INTERRUPTS) (execution_time : Nat) (idt : idt_t) : idt_t :=
  Function.update idt i
    { idt i with
      state := IRQ_STATE_REGISTERED
      total_execution_time := ((idt i).total_execution_time + execution_time) % ULONG_MOD }

/-- The dispatcher. `exec f n` is the effect of calling the function `f` points to
with argument `n`. -/
def dispatch_interrupt (exec : isr_ptr → Int → Sys → Sys) (clk : dispatch_clock)
    (irq_num : Int) (s : Sys) : Sys :=
  let is_timer_irq : Int := if irq_num = IRQ_TIMER then 1 else 0
  if validate_irq_num irq_num ≠ SUCCESS then
    add_trace_smart clk.ts_first
      (snprintf MAX_TRACE_MSG_LEN (cstr "Error: IRQ " ++ fmt_d irq_num ++ cstr " fuera de rango"))
      (-1) 0 s
  else
    match dispatch_begin clk.now (idt_slot irq_num) s.idt with
    | none =>
      add_trace_smart clk.ts_first
        (snprintf MAX_TRACE_MSG_LEN
          (cstr "Error: No hay ISR registrada para IRQ " ++ fmt_d irq_num))
        irq_num is_timer_irq s
    | some (isr_function, idt1) =>
      let trace_msg := snprintf MAX_TRACE_MSG_LEN
        (cstr ">>> DESPACHANDO IRQ " ++ fmt_d irq_num ++ cstr " ("
          ++ (idt1 (idt_slot irq_num)).description ++ cstr ") - Llamada #"
          ++ fmt_d (idt1 (idt_slot irq_num)).call_count)
      let s1 := add_trace_smart clk.ts_first trace_msg irq_num is_timer_irq { s with idt := idt1 }
      let s2 := exec isr_function irq_num s1
      let execution_time := elapsed_us clk.start_time clk.end_time
      let s3 := { s2 with idt := dispatch_end (idt_slot irq_num) execution_time s2.idt }
      let s4 := update_stats irq_num execution_time s3
      add_trace_smart clk.ts_last
        (snprintf MAX_TRACE_MSG_LEN
          (cstr "<<< FINALIZANDO IRQ " ++ fmt_d irq_num
            ++ cstr " - Retorno al flujo principal (Tiempo: " ++ fmt_lu execution_time
            ++ cstr " μs)"))
        irq_num is_timer_irq s4

/-! ## Predefined handlers

The delays (`usleep`) show only in the clock readings of the dispatcher. -/

def timer_isr (ts : CStr) (irq_num : Int) (s : Sys) : Sys :=
  let s1 := { s with timer_counter := int_wrap (s.timer_counter + 1) }
  add_trace_smart ts
    (snprintf MAX_TRACE_MSG_LEN (cstr "    TIMER ISR: Tick del sistema #" ++ fmt_d s1.timer_counter))
    irq_num 1 s1

def keyboard_isr (ts : CStr) (irq_num : Int) (s : Sys) : Sys :=
  add_trace_with_irq ts
    (snprintf MAX_TRACE_MSG_LEN (cstr "    KEYBOARD ISR: Procesando entrada del teclado"))
    irq_num s

def custom_isr (ts : CStr) (irq_num : Int) (s : Sys) : Sys :=
  add_trace_with_irq ts
    (snprintf MAX_TRACE_MSG_LEN
      (cstr "    CUSTOM ISR: Rutina personalizada para IRQ " ++ fmt_d irq_num))
    irq_num s

def error_isr (ts : CStr) (irq_num : Int) (s : Sys) : Sys :=
  add_trace_with_irq ts
    (snprintf MAX_TRACE_MSG_LEN (cstr "    ERROR ISR: Manejando error en IRQ " ++ fmt_d irq_num))
    irq_num s

/-- Addresses of the four predefined handlers. -/
def timer_isr_ptr : isr_ptr := 1
def keyboard_isr_ptr : isr_ptr := 2
def custom_isr_ptr : isr_ptr := 3
def error_isr_ptr : isr_ptr := 4

/-- The code behind the function pointers of the program: the four predefined
handlers, each reading the timestamp text `ts` when it runs. -/
def predefined_exec (ts : CStr) (f : isr_ptr) (irq_num : Int) (s : Sys) : Sys :=
  if f = timer_isr_ptr then timer_isr ts irq_num s
  else if f = keyboard_isr_ptr then keyboard_isr ts irq_num s
  else if f = custom_isr_ptr then custom_isr ts irq_num s
  else if f = error_isr_ptr then error_isr ts irq_num s
  else s

/-! ## Runs -/

/-- One environment for each call of a run of dispatches: the code behind the
function pointers during that call, and the clock readings of the call. -/
abbrev dispatch_env := (isr_ptr → Int → Sys → Sys) × dispatch_clock

/-- Sequential calls `dispatch_interrupt(irq_num)`, one for each environment. -/
def dispatch_repeat (irq_num : Int) : List dispatch_env → Sys → Sys
  | [], s => s
  | e :: rest, s => dispatch_repeat irq_num rest (dispatch_interrupt e.1 e.2 irq_num s)

/-- The elapsed times measured by the calls of a run. -/
def measured (calls : List dispatch_env) : List Nat :=
  calls.map (fun e => elapsed_us e.2.start_time e.2.end_time)

/-- Three environments for the scenario of `run_interrupt_test_suite`: the
predefined handlers, and clock readings 8000 microseconds apart. -/
def three_calls : List dispatch_env :=
  List.replicate 3 (predefined_exec [], ⟨[], 0, ⟨0, 0⟩, ⟨0, 8000000⟩, []⟩)

/-- A state in the middle of a dispatch: after start-up, line 3 was registered with
`custom_isr` and the first locked section of `dispatch_interrupt` has run on it. -/
def mid_dispatch : Sys :=
  let s0 := (register_isr [] 3 (some custom_isr_ptr) (cstr "ISR Personalizada 3")
    (init_idt [] boot)).2
  match dispatch_begin 0 3 s0.idt with
  | some (_, idt1) => { s0 with idt := idt1 }
  | none => s0

/-- States reachable from `init_idt` by calls of `register_isr`, `unregister_isr` and
`dispatch_interrupt`. The handler arguments of `register_isr` are those satisfying
`ok`; the code run by a dispatched handler leaves the descriptor table alone. -/
inductive Reachable (ok : Option isr_ptr → Prop) : Sys → Prop where
  | init (ts : CStr) (s : Sys) : Reachable ok (init_idt ts s)
  | register (ts : CStr) (irq_num : Int) (h : Option isr_ptr) (d : CStr) (s : Sys) :
      ok h → Reachable ok s → Reachable ok (register_isr ts irq_num h d s).2
  | unregister (ts : CStr) (irq_num : Int) (s : Sys) :
      Reachable ok s → Reachable ok (unregister_isr ts irq_num s).2
  | dispatch (exec : isr_ptr → Int → Sys → Sys) (clk : dispatch_clock) (irq_num : Int) (s : Sys) :
      (∀ f n t, (exec f n t).idt = t.idt) → Reachable ok s →
      Reachable ok (dispatch_interrupt exec clk irq_num s)

/-- Tables reachable from the one `init_idt` builds by the sections run under
`idt_mutex`, in any order: this covers calls nested in a handler and calls from
another thread. The second section of a dispatch runs on a line its first section
marked executing. -/
inductive table_reachable (ok : Option isr_ptr → Prop) : idt_t → Prop where
  | init : table_reachable ok init_idt_table
  | register (i : Fin MAX_INTERRUPTS) (h : Option isr_ptr) (d : CStr) (t t1 : idt_t) :
      ok h → table_reachable ok t → register_isr_locked i h d t = some t1 →
      table_reachable ok t1
  | unregister (i : Fin MAX_INTERRUPTS) (t t1 : idt_t) :
      table_reachable ok t → unregister_isr_locked i (i.val : Int) t = some t1 →
      table_reachable ok t1
  | dispatch_begin (now : Int) (i : Fin MAX_INTERRUPTS) (f : isr_ptr) (t t1 : idt_t) :
      table_reachable ok t → dispatch_begin now i t = some (f, t1) →
      table_reachable ok t1
  | dispatch_end (i : Fin MAX_INTERRUPTS) (execution_time : Nat) (t : idt_t) :
      table_reachable ok t → (t i).state = IRQ_STATE_EXECUTING →
      table_reachable ok (dispatch_end i execution_time t)

/-- One atomic step on the table: the locked section of `register_isr` or of
`unregister_isr` when it writes, or the first or the second locked section of
`dispatch_interrupt`. -/
inductive locked_section : idt_t → idt_t → Prop where
  | register (i : Fin MAX_INTERRUPTS) (h : Option isr_ptr) (d : CStr) (t t1 : idt_t) :
      register_isr_locked i h d t = some t1 → locked_section t t1
  | unregister (i : Fin MAX_INTERRUPTS) (irq_num : Int) (t t1 : idt_t) :
      unregister_isr_locked i irq_num t = some t1 → locked_section t t1
  | dispatch_begin (now : Int) (i : Fin MAX_INTERRUPTS) (f : isr_ptr) (t t1 : idt_t) :
      dispatch_begin now i t = some (f, t1) → locked_section t t1
  | dispatch_end (i : Fin MAX_INTERRUPTS) (execution_time : Nat) (t : idt_t) :
      locked_section t (dispatch_end i execution_time t)

/-- The invariant of the data model: a handler is installed exactly when the state
is not Free. -/
def handler_iff_not_free (d : irq_descriptor_t) : Prop :=
  d.isr ≠ none ↔ d.state ≠ IRQ_STATE_FREE

/-- The transitions the state machine of the specification lists:
Free to Registered, Registered to Registered, Registered to Free, Registered to
Executing, Executing to Registered. -/
def listed_transition : irq_state_t → irq_state_t → Bool
  | IRQ_STATE_FREE, IRQ_STATE_REGISTERED => true
  | IRQ_STATE_REGISTERED, IRQ_STATE_REGISTERED => true
  | IRQ_STATE_REGISTERED, IRQ_STATE_FREE => true
  | IRQ_STATE_REGISTERED, IRQ_STATE_EXECUTING => true
  | IRQ_STATE_EXECUTING, IRQ_STATE_REGISTERED => true
  | _, _ => false

/-- One trace write: which of the four writers is called, and its arguments. -/
inductive trace_call where
  | plain (ts event : CStr)
  | with_irq (ts event : CStr) (irq_num : Int)
  | silent (ts event : CStr)
  | with_irq_silent (ts event : CStr) (irq_num : Int)

/-- Run one trace write. -/
def trace_call.run : trace_call → Sys → Sys
  | .plain ts event, s => add_trace ts event s
  | .with_irq ts event irq_num, s => add_trace_with_irq ts event irq_num s
  | .silent ts event, s => add_trace_silent ts event s
  | .with_irq_silent ts event irq_num, s => add_trace_with_irq_silent ts event irq_num s

/-- What a trace write is expected to leave in the log: its timestamp, its message
cut to 255 bytes, and its line tag (-1 for the writers without one). -/
def trace_call.entry : trace_call → trace_entry_t
  | .plain ts event => ⟨ts, event.take 255, -1⟩
  | .with_irq ts event irq_num => ⟨ts, event.take 255, irq_num⟩
  | .silent ts event => ⟨ts, event.take 255, -1⟩
  | .with_irq_silent ts event irq_num => ⟨ts, event.take 255, irq_num⟩

/-- A sequence of trace writes, in order. -/
def trace_writes (ws : List trace_call) (s : Sys) : Sys :=
  ws.foldl (fun t w => w.run t) s

/-- The 100 slots of the ring read in ring order, starting at `trace_index`. -/
def ring_read (s : Sys) : List trace_entry_t :=
  (List.range 100).map
    (fun (k : Nat) => s.trace_log (Int.tmod (s.trace_index + (k : Int)) MAX_TRACE_LINES))

/-- A run of 101 writes: number `n` writes the one-byte message `n`, through
`add_trace` for even `n` and `add_trace_with_irq_silent` for odd `n`. -/
def writes_101 : List trace_call :=
  (List.range 101).map (fun (n : Nat) =>
    if n % 2 = 0 then trace_call.plain [] [UInt8.ofNat n]
    else trace_call.with_irq_silent [] [UInt8.ofNat n] (n : Int))

/-! ## Reading the trace -/

/-- The slots the loop of `show_recent_trace` visits, in the order it visits them:
`entries_to_show` slots from `start` on. -/
def recent_slots (s : Sys) : List Int :=
  let entries_to_show : Int := if s.trace_index < 10 then s.trace_index else 10
  let start : Int :=
    Int.tmod (s.trace_index - entries_to_show + MAX_TRACE_LINES) MAX_TRACE_LINES
  (List.range entries_to_show.toNat).map
    (fun (i : Nat) => Int.tmod (start + (i : Int)) MAX_TRACE_LINES)

/-- The entries `show_recent_trace` selects: those in the slots its loop visits. -/
def recent_entries (s : Sys) : List trace_entry_t :=
  (recent_slots s).map s.trace_log

def show_recent_trace (s : Sys) : Sys :=
  let s1 := printf (cstr "\n=== TRAZA RECIENTE (últimas 10 entradas) ===\n") s
  let s2 := (recent_slots s).foldl
    (fun (t : Sys) (idx : Int) =>
      if (s.trace_log idx).event.length > 0 then
        if (s.trace_log idx).irq_num ≥ 0 then
          printf (cstr "[" ++ (s.trace_log idx).timestamp ++ cstr "] [IRQ"
            ++ fmt_d (s.trace_log idx).irq_num ++ cstr "] " ++ (s.trace_log idx).event
            ++ cstr "\n") t
        else
          printf (cstr "[" ++ (s.trace_log idx).timestamp ++ cstr "] "
            ++ (s.trace_log idx).event ++ cstr "\n") t
      else t)
    s1
  printf (cstr "\n") s2

/-- What the specification asks of the recent-trace read after the writes `ws`:
the last `min count requested` entries written, oldest first, where `count` is the
number of entries the ring of 100 slots holds. -/
def recent_expected (requested : Nat) (ws : List trace_call) : List trace_entry_t :=
  (ws.map trace_call.entry).drop (ws.length - min (min ws.length 100) requested)

/-- A run of 100 writes through `add_trace_with_irq`, number `n` writing the one-byte
message `n + 1` for line `n % 16`: it fills the ring exactly once. -/
def writes_100 : List trace_call :=
  (List.range 100).map (fun (n : Nat) =>
    trace_call.with_irq [] [UInt8.ofNat (n + 1)] ((n % 16 : Nat) : Int))

/-! ## Statistics runs -/

/-- Successive calls `update_stats(irq_num, execution_time)`, one for each pair. -/
def update_stats_seq (calls : List (Int × Nat)) (s : Sys) : Sys :=
  calls.foldl (fun t c => update_stats c.1 c.2 t) s

/-- The samples of a run of `update_stats` calls. -/
def samples (calls : List (Int × Nat)) : List Nat := calls.map (fun c => c.2)

/-- The C expression `timer_interrupts + keyboard_interrupts + custom_interrupts`, of
type `unsigned long`. -/
def bucket_sum (st : system_stats_t) : Nat :=
  (st.timer_interrupts + st.keyboard_interrupts + st.custom_interrupts) % ULONG_MOD

/-! ## Trace writes and visibility -/

/-- The log of `s1` is the log of `s` after exactly one write, of the entry `e`: the
slot at `trace_index` holds `e`, every other slot is as before, and `trace_index`
has advanced by one around the ring. -/
def logged_once (e : trace_entry_t) (s s1 : Sys) : Prop :=
  s1.trace_log = Function.update s.trace_log s.trace_index e
    ∧ s1.trace_index = Int.tmod (s.trace_index + 1) MAX_TRACE_LINES

/-- The visibility predicate of the specification, over the level, the timer-log
toggle and whether the entry is timer-related: never when Silent, always when
Verbose, and when UserOnly unless the entry is timer-related and the toggle is off. -/
def visible (level : log_level_t) (timer_logs is_timer_related : Bool) : Bool :=
  match level with
  | LOG_LEVEL_SILENT => false
  | LOG_LEVEL_USER_ONLY => !is_timer_related || timer_logs
  | LOG_LEVEL_VERBOSE => true

/-- The timestamp the printing code reads back after the write of an entry with
line tag `m`: the one in the slot behind the advanced `trace_index`. -/
def stored_stamp (ts event : CStr) (m : Int) (s : Sys) : CStr :=
  ((trace_store ts event m s).trace_log (last_slot (trace_store ts event m s))).timestamp

/-- The line `add_trace_smart` prints when it prints: the timestamp just stored,
the line tag when there is one, and the message. -/
def smart_line (ts event : CStr) (irq_num : Int) : CStr :=
  if irq_num ≥ 0 then
    cstr "[" ++ ts ++ cstr "] [IRQ" ++ fmt_d irq_num ++ cstr "] " ++ event ++ cstr "\n"
  else
    cstr "[" ++ ts ++ cstr "] " ++ event ++ cstr "\n"

/-- The state `main` builds before it starts the timer thread: table and statistics
initialised, the timer and the keyboard handler registered. -/
def started : Sys :=
  let s1 := init_system_stats 0 (init_idt [] boot)
  let s2 := (register_isr [] IRQ_TIMER (some timer_isr_ptr) (cstr "Timer del Sistema") s1).2
  (register_isr [] IRQ_KEYBOARD (some keyboard_isr_ptr) (cstr "Controlador de Teclado") s2).2

/-- The started system after the menu choice "modo silencioso". -/
def silent_started : Sys := set_log_level LOG_LEVEL_SILENT started

/-! ## Inside a dispatch, and two dispatches at once -/

/-- The handler `dispatch_interrupt` calls and the state in which it calls it: the
first locked section has run and the entry announcing the dispatch is traced.
`none` when the call returns without calling a handler. -/
def handler_entry (clk : dispatch_clock) (irq_num : Int) (s : Sys) : Option (isr_ptr × Sys) :=
  if validate_irq_num irq_num ≠ SUCCESS then none
  else
    match dispatch_begin clk.now (idt_slot irq_num) s.idt with
    | none => none
    | some (isr_function, idt1) =>
      some (isr_function,
        add_trace_smart clk.ts_first
          (snprintf MAX_TRACE_MSG_LEN
            (cstr ">>> DESPACHANDO IRQ " ++ fmt_d irq_num ++ cstr " ("
              ++ (idt1 (idt_slot irq_num)).description ++ cstr ") - Llamada #"
              ++ fmt_d (idt1 (idt_slot irq_num)).call_count))
          irq_num (if irq_num = IRQ_TIMER then 1 else 0) { s with idt := idt1 })

/-- Where a thread running `dispatch_interrupt` on a valid line stands: before the
first locked section; between the two locked sections, with the handler it
captured (the handler runs here); returned after calling the handler; returned
without calling one. -/
inductive dispatch_pc where
  | ready
  | running (f : isr_ptr)
  | invoked
  | rejected
deriving DecidableEq

/-- The next locked section of a thread running `dispatch_interrupt` on line `i`,
applied to the table: `now` is its reading of `time(NULL)` and `execution_time` the
time it measures around the handler. The handler leaves the table alone. -/
def thread_step (now : Int) (execution_time : Nat) (i : Fin MAX_INTERRUPTS) (idt : idt_t) :
    dispatch_pc → idt_t × dispatch_pc
  | .ready =>
    match dispatch_begin now i idt with
    | none => (idt, .rejected)
    | some (f, idt1) => (idt1, .running f)
  | .running _ => (dispatch_end i execution_time idt, .invoked)
  | .invoked => (idt, .invoked)
  | .rejected => (idt, .rejected)

/-- Two threads, each in a call `dispatch_interrupt(i)`, and the table they share. -/
structure two_threads where
  idt : idt_t
  pc_a : dispatch_pc
  pc_b : dispatch_pc

/-- The clock readings of one thread. -/
structure thread_clock where
  now : Int
  execution_time : Nat

/-- The mutex lets one thread at a time run a locked section: thread A when
`a_moves`, else thread B. -/
def two_threads.step (i : Fin MAX_INTERRUPTS) (ca cb : thread_clock) (c : two_threads)
    (a_moves : Bool) : two_threads :=
  if a_moves then
    { c with
      idt := (thread_step ca.now ca.execution_time i c.idt c.pc_a).1
      pc_a := (thread_step ca.now ca.execution_time i c.idt c.pc_a).2 }
  else
    { c with
      idt := (thread_step cb.now cb.execution_time i c.idt c.pc_b).1
      pc_b := (thread_step cb.now cb.execution_time i c.idt c.pc_b).2 }

/-- An interleaving of the two calls: the order in which the threads get the mutex. -/
def interleave (i : Fin MAX_INTERRUPTS) (ca cb : thread_clock) (schedule : List Bool)
    (c : two_threads) : two_threads :=
  schedule.foldl (two_threads.step i ca cb) c

def dispatch_pc.is_running : dispatch_pc → Bool
  | .running _ => true
  | _ => false

/-- Has the thread got past the first locked section with a handler to call. -/
def dispatch_pc.calls_handler : dispatch_pc → Bool
  | .running _ => true
  | .invoked => true
  | _ => false

def dispatch_pc.finished : dispatch_pc → Bool
  | .invoked => true
  | .rejected => true
  | _ => false

/-- The number of handler invocations made so far by the two threads. -/
def invocations (c : two_threads) : Nat :=
  (if c.pc_a.calls_handler then 1 else 0) + (if c.pc_b.calls_handler then 1 else 0)

/-- What holds of line `i` throughout any interleaving of two dispatches of it,
started with handler `f` registered and call count `base`. -/
def two_threads.inv (i : Fin MAX_INTERRUPTS) (f : isr_ptr) (base : Int) (c : two_threads) :
    Prop :=
  (c.idt i).isr = some f
    ∧ (c.idt i).call_count = count_after base (invocations c)
    ∧ (c.idt i).state
        = (if c.pc_a.is_running || c.pc_b.is_running then IRQ_STATE_EXECUTING
            else IRQ_STATE_REGISTERED)
    ∧ ¬ (c.pc_a.is_running = true ∧ c.pc_b.is_running = true)
    ∧ (c.pc_a = .rejected → c.pc_b.calls_handler = true)
    ∧ (c.pc_b = .rejected → c.pc_a.calls_handler = true)

/-! ## Elapsed time, ring bounds, free lines -/

/-- The value of the `long` expression
`(end.tv_sec - start.tv_sec) * 1000000 + (end.tv_nsec - start.tv_nsec) / 1000`, before
its conversion to `unsigned long`. -/
def elapsed_long (start_time end_time : timespec) : Int :=
  (end_time.tv_sec - start_time.tv_sec) * 1000000
    + Int.tdiv (end_time.tv_nsec - start_time.tv_nsec) 1000

/-- The instant of a timestamp, in nanoseconds. -/
def timespec.nanos (t : timespec) : Int := t.tv_sec * 1000000000 + t.tv_nsec

/-- A subscript within the array `trace_log[MAX_TRACE_LINES]`. -/
def in_ring (k : Int) : Prop := 0 ≤ k ∧ k < 100

/-- A descriptor as every Free descriptor of line `j` is claimed to be: no handler,
both counters 0, the placeholder description. -/
def free_is_clean (j : Fin MAX_INTERRUPTS) (d : irq_descriptor_t) : Prop :=
  d.state = IRQ_STATE_FREE →
    d.isr = none ∧ d.call_count = 0 ∧ d.total_execution_time = 0
      ∧ d.description = placeholder (j.val : Int)

/-- A timestamp pair with the later one in the earlier part of its second. -/
def clock_start : timespec := ⟨1, 999999999⟩
def clock_end : timespec := ⟨2, 0⟩

/-! ## Further example states -/

/-- A run of `INT_MAX + 1` dispatches, each with the predefined handlers and the same
clock readings. -/
def many_calls : List dispatch_env :=
  List.replicate 2147483648 (predefined_exec [], ⟨[], 0, ⟨0, 0⟩, ⟨0, 8000000⟩, []⟩)

/-- A run of `INT_MAX` dispatches, each with the predefined handlers and the same
clock readings. -/
def max_calls : List dispatch_env :=
  List.replicate 2147483647 (predefined_exec [], ⟨[], 0, ⟨0, 0⟩, ⟨0, 8000000⟩, []⟩)

/-- The state after line 2 is registered with `custom_isr` on the initialised table
and dispatched `INT_MAX` times. -/
def at_int_max : Sys :=
  dispatch_repeat 2 max_calls
    (register_isr [] 2 (some custom_isr_ptr) (cstr "Test ISR 1") (init_idt [] boot)).2

/-- The started system after one dispatch of the keyboard line, made when
`time(NULL)` read 45296. -/
def dispatched_once : Sys :=
  dispatch_interrupt (predefined_exec []) ⟨[], 45296, ⟨0, 0⟩, ⟨0, 5000000⟩, []⟩ 1 started

/-! ## Basic facts -/

theorem int_wrap_of_range (x : Int) (h0 : -2147483648 ≤ x) (h1 : x ≤ 2147483647) :
    int_wrap x = x := by
  unfold int_wrap; omega

theorem int_wrap_succ (a : Int) : int_wrap (int_wrap a + 1) = int_wrap (a + 1) := by
  unfold int_wrap; omega

@[simp] theorem count_after_zero (b : Int) : count_after b 0 = b := rfl

@[simp] theorem count_after_one (b : Int) : count_after b 1 = int_wrap (b + 1) := rfl

@[simp] theorem count_after_two (b : Int) :
    count_after b 2 = int_wrap (int_wrap (b + 1) + 1) := rfl

theorem count_after_shift (b : Int) (n : Nat) :
    count_after (int_wrap (b + 1)) n = count_after b (n + 1) := by
  induction n with
  | zero => rfl
  | succ n ih => rw [count_after, ih]; rfl

/-- While the counter stays within the range of `int`, `n` increments add `n`. -/
theorem count_after_in_range (b : Int) (n : Nat)
    (h0 : -2147483648 ≤ b) (h1 : b + (n : Int) ≤ 2147483647) :
    count_after b n = b + (n : Int) := by
  induction n with
  | zero => simp
  | succ n ih =>
    rw [count_after, ih (by omega), int_wrap_of_range _ (by omega) (by omega)]
    push_cast; ring

/-- From a value of type `int`, `n` increments give the wrapped sum. -/
theorem count_after_wrap (b : Int) (n : Nat)
    (h0 : -2147483648 ≤ b) (h1 : b ≤ 2147483647) :
    count_after b n = int_wrap (b + (n : Int)) := by
  induction n with
  | zero => simp [int_wrap_of_range b h0 h1]
  | succ n ih =>
    rw [count_after, ih, int_wrap_succ]
    push_cast
    rw [add_assoc]

theorem valid_of_fin (i : Fin MAX_INTERRUPTS) : IS_VALID_IRQ (i.val : Int) = true := by
  have h : i.val < 16 := i.isLt
  simp only [IS_VALID_IRQ, Bool.and_eq_true, decide_eq_true_eq]
  constructor <;> omega

theorem validate_of_fin (i : Fin MAX_INTERRUPTS) : validate_irq_num (i.val : Int) = SUCCESS := by
  simp [validate_irq_num, valid_of_fin]

theorem idt_slot_of_fin (i : Fin MAX_INTERRUPTS) : idt_slot (i.val : Int) = i := by
  apply Fin.ext
  have h : i.val < 16 := i.isLt
  simp only [idt_slot, Int.toNat_ofNat, Fin.ofNat, Fin.val_mk]
  omega

theorem invalid_iff (irq_num : Int) :
    validate_irq_num irq_num ≠ SUCCESS ↔ (irq_num < 0 ∨ 16 ≤ irq_num) := by
  unfold validate_irq_num IS_VALID_IRQ
  by_cases h1 : irq_num ≥ 0 <;> by_cases h2 : irq_num < (MAX_INTERRUPTS : Int)
    <;> simp [h1, h2, SUCCESS, ERROR_INVALID_IRQ] <;> omega

@[simp] theorem printf_idt (t : CStr) (s : Sys) : (printf t s).idt = s.idt := rfl
@[simp] theorem printf_stats (t : CStr) (s : Sys) : (printf t s).stats = s.stats := rfl
@[simp] theorem trace_store_idt (ts e : CStr) (n : Int) (s : Sys) :
    (trace_store ts e n s).idt = s.idt := rfl
@[simp] theorem trace_store_stats (ts e : CStr) (n : Int) (s : Sys) :
    (trace_store ts e n s).stats = s.stats := rfl
@[simp] theorem add_trace_idt (ts e : CStr) (s : Sys) : (add_trace ts e s).idt = s.idt := rfl
@[simp] theorem add_trace_stats (ts e : CStr) (s : Sys) :
    (add_trace ts e s).stats = s.stats := rfl
@[simp] theorem add_trace_with_irq_idt (ts e : CStr) (n : Int) (s : Sys) :
    (add_trace_with_irq ts e n s).idt = s.idt := rfl
@[simp] theorem add_trace_with_irq_stats (ts e : CStr) (n : Int) (s : Sys) :
    (add_trace_with_irq ts e n s).stats = s.stats := rfl

@[simp] theorem add_trace_smart_idt (ts e : CStr) (n t : Int) (s : Sys) :
    (add_trace_smart ts e n t s).idt = s.idt := by
  unfold add_trace_smart
  simp only [add_trace_with_irq_silent, add_trace_silent]
  split_ifs <;> simp

@[simp] theorem add_trace_smart_stats (ts e : CStr) (n t : Int) (s : Sys) :
    (add_trace_smart ts e n t s).stats = s.stats := by
  unfold add_trace_smart
  simp only [add_trace_with_irq_silent, add_trace_silent]
  split_ifs <;> simp

@[simp] theorem update_stats_idt (n : Int) (t : Nat) (s : Sys) :
    (update_stats n t s).idt = s.idt := rfl

@[simp] theorem update_stats_timer_counter (n : Int) (t : Nat) (s : Sys) :
    (update_stats n t s).timer_counter = s.timer_counter := rfl

@[simp] theorem add_trace_smart_timer_counter (ts e : CStr) (n t : Int) (s : Sys) :
    (add_trace_smart ts e n t s).timer_counter = s.timer_counter := by
  unfold add_trace_smart
  simp only [add_trace_with_irq_silent, add_trace_silent]
  split_ifs <;> rfl

theorem dispatch_begin_none (now : Int) (i : Fin MAX_INTERRUPTS) (idt : idt_t)
    (h : (idt i).state ≠ IRQ_STATE_REGISTERED ∨ (idt i).isr = none) :
    dispatch_begin now i idt = none := by
  unfold dispatch_begin
  rcases h with h | h
  · simp [h]
  · simp [h]

theorem predefined_exec_idt (ts : CStr) (f : isr_ptr) (n : Int) (s : Sys) :
    (predefined_exec ts f n s).idt = s.idt := by
  unfold predefined_exec
  split_ifs <;> simp [timer_isr, keyboard_isr, custom_isr, error_isr]

theorem dispatch_registered_idt (exec : isr_ptr → Int → Sys → Sys) (clk : dispatch_clock)
    (i : Fin MAX_INTERRUPTS) (s : Sys) (f : isr_ptr)
    (hexec : ∀ n t, (exec f n t).idt = t.idt)
    (hst : (s.idt i).state = IRQ_STATE_REGISTERED) (hisr : (s.idt i).isr = some f) :
    (dispatch_interrupt exec clk (i.val : Int) s).idt
      = Function.update s.idt i
          { s.idt i with
            state := IRQ_STATE_REGISTERED
            call_count := int_wrap ((s.idt i).call_count + 1)
            last_call := clk.now
            total_execution_time :=
              ((s.idt i).total_execution_time + elapsed_us clk.start_time clk.end_time)
                % ULONG_MOD } := by
  unfold dispatch_interrupt
  simp only [validate_of_fin, idt_slot_of_fin, ne_eq, not_true_eq_false, if_false,
    dispatch_begin, hst, hisr]
  simp [hexec, dispatch_end]

theorem dispatch_repeat_registered (i : Fin MAX_INTERRUPTS) (f : isr_ptr) :
    ∀ (calls : List dispatch_env) (s : Sys),
      (∀ e ∈ calls, ∀ n t, (e.1 f n t).idt = t.idt) →
      (s.idt i).state = IRQ_STATE_REGISTERED → (s.idt i).isr = some f →
      (s.idt i).total_execution_time < ULONG_MOD →
      ((dispatch_repeat (i.val : Int) calls s).idt i).state = IRQ_STATE_REGISTERED
        ∧ ((dispatch_repeat (i.val : Int) calls s).idt i).isr = some f
        ∧ ((dispatch_repeat (i.val : Int) calls s).idt i).call_count
            = count_after (s.idt i).call_count calls.length
        ∧ ((dispatch_repeat (i.val : Int) calls s).idt i).total_execution_time
            = ((s.idt i).total_execution_time + (measured calls).sum) % ULONG_MOD := by
  intro calls
  induction calls with
  | nil =>
    intro s _ hst hisr hlt
    simp [dispatch_repeat, hst, hisr, measured, Nat.mod_eq_of_lt hlt]
  | cons e rest ih =>
    intro s hexec hst hisr _
    have hstep := dispatch_registered_idt e.1 e.2 i s f
      (hexec e (List.mem_cons_self _ _)) hst hisr
    have hpos : 0 < ULONG_MOD := by decide
    have ih2 := ih (dispatch_interrupt e.1 e.2 (i.val : Int) s)
      (fun e2 h2 => hexec e2 (List.mem_cons_of_mem _ h2))
      (by rw [hstep]; simp) (by rw [hstep]; simp [hisr])
      (by rw [hstep]; simp; exact Nat.mod_lt _ hpos)
    simp only [dispatch_repeat]
    obtain ⟨h1, h2, h3, h4⟩ := ih2
    refine ⟨h1, h2, ?_, ?_⟩
    · rw [h3, hstep]
      simp only [Function.update_same, List.length_cons]
      exact count_after_shift _ _
    · rw [h4, hstep]
      simp only [Function.update_same, measured, List.map_cons, List.sum_cons]
      rw [Nat.mod_add_mod, Nat.add_assoc]

theorem register_isr_ok (ts : CStr) (i : Fin MAX_INTERRUPTS) (h : Option isr_ptr) (d : CStr)
    (s : Sys) (hne : (s.idt i).state ≠ IRQ_STATE_EXECUTING) :
    register_isr ts (i.val : Int) h d s
      = (SUCCESS,
          add_trace_with_irq ts
            (snprintf MAX_TRACE_MSG_LEN
              (cstr "ISR registrada para IRQ " ++ fmt_d (i.val : Int) ++ cstr ": " ++ d))
            (i.val : Int)
            { s with
              idt := Function.update s.idt i
                { s.idt i with
                  isr := h
                  state := IRQ_STATE_REGISTERED
                  call_count := 0
                  total_execution_time := 0
                  description := strncpy d (MAX_DESCRIPTION_LEN - 1) } }) := by
  unfold register_isr
  simp only [validate_of_fin, idt_slot_of_fin, ne_eq, not_true_eq_false, if_false,
    register_isr_locked, hne]

theorem register_isr_busy (ts : CStr) (i : Fin MAX_INTERRUPTS) (h : Option isr_ptr) (d : CStr)
    (s : Sys) (hex : (s.idt i).state = IRQ_STATE_EXECUTING) :
    register_isr ts (i.val : Int) h d s
      = (ERROR_ISR_EXECUTING,
          add_trace ts (cstr "Advertencia: No se puede registrar ISR mientras se ejecuta") s) := by
  unfold register_isr
  simp only [validate_of_fin, idt_slot_of_fin, ne_eq, not_true_eq_false, if_false,
    register_isr_locked, hex, if_true]

theorem unregister_isr_ok (ts : CStr) (i : Fin MAX_INTERRUPTS) (s : Sys)
    (hne : (s.idt i).state ≠ IRQ_STATE_EXECUTING) :
    unregister_isr ts (i.val : Int) s
      = (SUCCESS,
          add_trace_with_irq ts
            (snprintf MAX_TRACE_MSG_LEN (cstr "ISR desregistrada para IRQ " ++ fmt_d (i.val : Int)))
            (i.val : Int)
            { s with
              idt := Function.update s.idt i
                { s.idt i with
                  isr := none
                  state := IRQ_STATE_FREE
                  call_count := 0
                  total_execution_time := 0
                  description := placeholder (i.val : Int) } }) := by
  unfold unregister_isr
  simp only [validate_of_fin, idt_slot_of_fin, ne_eq, not_true_eq_false, if_false,
    unregister_isr_locked, hne]

theorem unregister_isr_busy (ts : CStr) (i : Fin MAX_INTERRUPTS) (s : Sys)
    (hex : (s.idt i).state = IRQ_STATE_EXECUTING) :
    unregister_isr ts (i.val : Int) s
      = (ERROR_ISR_EXECUTING,
          add_trace ts (cstr "Error: No se puede desregistrar ISR mientras se ejecuta") s) := by
  unfold unregister_isr
  simp only [validate_of_fin, idt_slot_of_fin, ne_eq, not_true_eq_false, if_false,
    unregister_isr_locked, hex, if_true]

theorem sum_replicate_like (l : List Nat) (t : Nat) (h : ∀ x ∈ l, x = t) :
    l.sum = l.length * t := by
  induction l with
  | nil => simp
  | cons x rest ih =>
    have hx : x = t := h x (List.mem_cons_self _ _)
    have hr := ih (fun y hy => h y (List.mem_cons_of_mem _ hy))
    simp only [List.sum_cons, List.length_cons, hx, hr]
    ring

theorem placeholder_text (i : Fin MAX_INTERRUPTS) :
    placeholder (i.val : Int) = cstr "IRQ " ++ fmt_d (i.val : Int) ++ cstr " - No asignado" := by
  unfold placeholder snprintf
  apply List.take_of_length_le
  have h : ∀ j : Fin MAX_INTERRUPTS,
      (cstr "IRQ " ++ fmt_d (j.val : Int) ++ cstr " - No asignado").length ≤ 63 := by
    decide
  exact h i

theorem add_trace_smart_log (ts e : CStr) (n t : Int) (s : Sys) :
    (add_trace_smart ts e n t s).trace_log
      = Function.update s.trace_log s.trace_index
          ⟨ts, strncpy e (MAX_TRACE_MSG_LEN - 1), if n ≥ 0 then n else -1⟩ := by
  unfold add_trace_smart
  simp only [add_trace_with_irq_silent, add_trace_silent]
  by_cases hn : n ≥ 0
  · simp only [hn, if_true]
    split_ifs <;> rfl
  · simp only [hn, if_false]
    split_ifs <;> rfl

theorem add_trace_smart_index (ts e : CStr) (n t : Int) (s : Sys) :
    (add_trace_smart ts e n t s).trace_index = Int.tmod (s.trace_index + 1) MAX_TRACE_LINES := by
  unfold add_trace_smart
  simp only [add_trace_with_irq_silent, add_trace_silent]
  by_cases hn : n ≥ 0
  · simp only [hn, if_true]
    split_ifs <;> rfl
  · simp only [hn, if_false]
    split_ifs <;> rfl

theorem idt_slot_val (irq_num : Int) (hv : validate_irq_num irq_num = SUCCESS) :
    ((idt_slot irq_num).val : Int) = irq_num := by
  have hin : ¬ (irq_num < 0 ∨ 16 ≤ irq_num) := fun h => (invalid_iff irq_num).mpr h hv
  simp only [idt_slot, Fin.ofNat, Fin.val_mk]
  omega

theorem register_locked_some (i : Fin MAX_INTERRUPTS) (h : Option isr_ptr) (d : CStr)
    (t t1 : idt_t) (hs : register_isr_locked i h d t = some t1) :
    (t i).state ≠ IRQ_STATE_EXECUTING
      ∧ t1 = Function.update t i
          { t i with
            isr := h
            state := IRQ_STATE_REGISTERED
            call_count := 0
            total_execution_time := 0
            description := strncpy d (MAX_DESCRIPTION_LEN - 1) } := by
  unfold register_isr_locked at hs
  by_cases hex : (t i).state = IRQ_STATE_EXECUTING
  · simp [hex] at hs
  · simp only [hex, if_false, Option.some.injEq] at hs
    exact ⟨hex, hs.symm⟩

theorem unregister_locked_some (i : Fin MAX_INTERRUPTS) (n : Int) (t t1 : idt_t)
    (hs : unregister_isr_locked i n t = some t1) :
    (t i).state ≠ IRQ_STATE_EXECUTING
      ∧ t1 = Function.update t i
          { t i with
            isr := none
            state := IRQ_STATE_FREE
            call_count := 0
            total_execution_time := 0
            description := placeholder n } := by
  unfold unregister_isr_locked at hs
  by_cases hex : (t i).state = IRQ_STATE_EXECUTING
  · simp [hex] at hs
  · simp only [hex, if_false, Option.some.injEq] at hs
    exact ⟨hex, hs.symm⟩

theorem dispatch_begin_some (now : Int) (i : Fin MAX_INTERRUPTS) (f : isr_ptr) (t t1 : idt_t)
    (hs : dispatch_begin now i t = some (f, t1)) :
    (t i).state = IRQ_STATE_REGISTERED ∧ (t i).isr = some f
      ∧ t1 = Function.update t i
          { t i with
            state := IRQ_STATE_EXECUTING
            call_count := int_wrap ((t i).call_count + 1)
            last_call := now } := by
  unfold dispatch_begin at hs
  by_cases hst : (t i).state = IRQ_STATE_REGISTERED
  · cases hisr : (t i).isr with
    | none => simp [hst, hisr] at hs
    | some g =>
      simp only [hst, hisr, ne_eq, not_true_eq_false, if_false, Option.some.injEq,
        Prod.mk.injEq] at hs
      exact ⟨hst, by rw [hs.1], by rw [← hs.2]; simp [hisr]⟩
  · simp [hst] at hs

/-- The table of a state reached by calls is reached by locked sections. -/
theorem Reachable.table (ok : Option isr_ptr → Prop) (s : Sys) (hr : Reachable ok s) :
    table_reachable ok s.idt := by
  induction hr with
  | init ts s => exact table_reachable.init
  | register ts irq_num h d s hok _ ih =>
    unfold register_isr
    by_cases hv : validate_irq_num irq_num = SUCCESS
    · simp only [hv, ne_eq, not_true_eq_false, if_false]
      cases hl : register_isr_locked (idt_slot irq_num) h d s.idt with
      | none => simpa using ih
      | some t1 => simpa using table_reachable.register _ h d s.idt t1 hok ih hl
    · simpa [hv] using ih
  | unregister ts irq_num s _ ih =>
    unfold unregister_isr
    by_cases hv : validate_irq_num irq_num = SUCCESS
    · simp only [hv, ne_eq, not_true_eq_false, if_false]
      cases hl : unregister_isr_locked (idt_slot irq_num) irq_num s.idt with
      | none => simpa using ih
      | some t1 =>
        have hl2 : unregister_isr_locked (idt_slot irq_num) ((idt_slot irq_num).val : Int) s.idt
            = some t1 := by rw [idt_slot_val irq_num hv]; exact hl
        simpa using table_reachable.unregister _ s.idt t1 ih hl2
    · simpa [hv] using ih
  | dispatch exec clk irq_num s hexec _ ih =>
    unfold dispatch_interrupt
    by_cases hv : validate_irq_num irq_num = SUCCESS
    · simp only [hv, ne_eq, not_true_eq_false, if_false]
      cases hb : dispatch_begin clk.now (idt_slot irq_num) s.idt with
      | none => simpa using ih
      | some p =>
        obtain ⟨f, t1⟩ := p
        have hb2 := dispatch_begin_some _ _ _ _ _ hb
        have h1 := table_reachable.dispatch_begin clk.now _ f s.idt t1 ih hb
        have hex : (t1 (idt_slot irq_num)).state = IRQ_STATE_EXECUTING := by
          rw [hb2.2.2]; simp
        have h2 := table_reachable.dispatch_end (idt_slot irq_num)
          (elapsed_us clk.start_time clk.end_time) t1 h1 hex
        simpa [hexec] using h2
    · simpa [hv] using ih

/-- On tables reached by locked sections, an installed handler means a state
other than Free. -/
theorem table_reachable.handler_not_free (ok : Option isr_ptr → Prop) (t : idt_t)
    (hr : table_reachable ok t) (j : Fin MAX_INTERRUPTS) :
    (t j).isr ≠ none → (t j).state ≠ IRQ_STATE_FREE := by
  induction hr with
  | init => intro h; exact absurd rfl h
  | register i h d t t1 _ _ hl ih =>
    obtain ⟨_, rfl⟩ := register_locked_some i h d t t1 hl
    by_cases hj : j = i
    · subst hj; simp
    · simpa [Function.update_noteq hj] using ih
  | unregister i t t1 _ hl ih =>
    obtain ⟨_, rfl⟩ := unregister_locked_some i _ t t1 hl
    by_cases hj : j = i
    · subst hj; simp
    · simpa [Function.update_noteq hj] using ih
  | dispatch_begin now i f t t1 _ hl ih =>
    obtain ⟨_, _, rfl⟩ := dispatch_begin_some now i f t t1 hl
    by_cases hj : j = i
    · subst hj; simp
    · simpa [Function.update_noteq hj] using ih
  | dispatch_end i x t _ _ ih =>
    unfold InterruptSimulator.dispatch_end
    by_cases hj : j = i
    · subst hj; simp
    · simpa [Function.update_noteq hj] using ih

/-- On tables reached by locked sections in which no null handler was registered,
the state is other than Free only where a handler is installed. -/
theorem table_reachable.not_free_handler (ok : Option isr_ptr → Prop)
    (hok : ∀ h, ok h → h ≠ none) (t : idt_t)
    (hr : table_reachable ok t) (j : Fin MAX_INTERRUPTS) :
    (t j).state ≠ IRQ_STATE_FREE → (t j).isr ≠ none := by
  induction hr with
  | init => intro h; exact absurd rfl h
  | register i h d t t1 hh _ hl ih =>
    obtain ⟨_, rfl⟩ := register_locked_some i h d t t1 hl
    by_cases hj : j = i
    · subst hj; simpa using hok h hh
    · simpa [Function.update_noteq hj] using ih
  | unregister i t t1 _ hl ih =>
    obtain ⟨_, rfl⟩ := unregister_locked_some i _ t t1 hl
    by_cases hj : j = i
    · subst hj; simp
    · simpa [Function.update_noteq hj] using ih
  | dispatch_begin now i f t t1 _ hl ih =>
    obtain ⟨_, hisr, rfl⟩ := dispatch_begin_some now i f t t1 hl
    by_cases hj : j = i
    · subst hj; simp [hisr]
    · simpa [Function.update_noteq hj] using ih
  | dispatch_end i x t _ hex ih =>
    unfold InterruptSimulator.dispatch_end
    by_cases hj : j = i
    · subst hj
      have h := ih (by rw [hex]; decide)
      simpa using h
    · simpa [Function.update_noteq hj] using ih

theorem trace_call_run (w : trace_call) (s : Sys) :
    (w.run s).trace_log = Function.update s.trace_log s.trace_index w.entry
      ∧ (w.run s).trace_index = Int.tmod (s.trace_index + 1) MAX_TRACE_LINES := by
  cases w <;> exact ⟨rfl, rfl⟩

theorem trace_writes_snoc (ws : List trace_call) (w : trace_call) (s : Sys) :
    trace_writes (ws ++ [w]) s = w.run (trace_writes ws s) := by
  simp [trace_writes, List.foldl_append]

/-- After `n` writes from an index within the ring, the index has advanced by `n`
around the ring and, for `k < 100`, the slot `k + 1` places behind the index holds
the write that was `k`-th from the end. -/
theorem trace_writes_ring (ws : List trace_call) (s : Sys)
    (h0 : 0 ≤ s.trace_index) (h1 : s.trace_index < 100) :
    (trace_writes ws s).trace_index = (s.trace_index + (ws.length : Int)) % 100
      ∧ ∀ k : Nat, k < 100 → k < ws.length →
          some ((trace_writes ws s).trace_log
              ((s.trace_index + (ws.length : Int) - 1 - (k : Int)) % 100))
            = (ws.map trace_call.entry)[ws.length - 1 - k]? := by
  induction ws using List.reverseRecOn with
  | nil => simp [trace_writes, Int.emod_eq_of_lt h0 h1]
  | append_singleton ws w ih =>
    obtain ⟨hidx, hslots⟩ := ih
    obtain ⟨hlog, hnext⟩ := trace_call_run w (trace_writes ws s)
    rw [trace_writes_snoc]
    have hlen : (ws ++ [w]).length = ws.length + 1 := by simp
    constructor
    · rw [hnext, hidx, hlen, MAX_TRACE_LINES, Int.tmod_eq_emod (by omega) (by omega)]
      push_cast
      omega
    · intro k hk hkl
      rw [hlog, hlen, List.map_append, List.map_singleton]
      by_cases hk0 : k = 0
      · subst hk0
        have hslot : (s.trace_index + ((ws.length + 1 : Nat) : Int) - 1 - ((0 : Nat) : Int)) % 100
            = (trace_writes ws s).trace_index := by
          rw [hidx]; push_cast; omega
        rw [hslot, Function.update_same]
        have hpos : ws.length + 1 - 1 - 0 = (ws.map trace_call.entry).length := by simp
        rw [hpos, List.getElem?_concat_length]
      · have hne : (s.trace_index + ((ws.length + 1 : Nat) : Int) - 1 - (k : Int)) % 100
            ≠ (trace_writes ws s).trace_index := by
          rw [hidx]; push_cast; omega
        rw [Function.update_noteq hne]
        have hkl2 : k - 1 < ws.length := by rw [hlen] at hkl; omega
        have hprev := hslots (k - 1) (by omega) hkl2
        have hslot : (s.trace_index + ((ws.length + 1 : Nat) : Int) - 1 - (k : Int)) % 100
            = (s.trace_index + (ws.length : Int) - 1 - ((k - 1 : Nat) : Int)) % 100 := by
          have : ((k - 1 : Nat) : Int) = (k : Int) - 1 := by omega
          rw [this]; push_cast
          congr 1
          omega
        rw [hslot, hprev]
        have hpos : ws.length + 1 - 1 - k = ws.length - 1 - (k - 1) := by omega
        rw [hpos, List.getElem?_append_left (by simp; omega)]

/-- What `show_recent_trace` selects after the writes `ws` made from an empty log:
the last `min (W % 100) 10` of them, oldest first, `W` being their number. -/
theorem recent_entries_after_writes (ws : List trace_call) (s : Sys)
    (h0 : s.trace_index = 0) :
    recent_entries (trace_writes ws s)
      = (ws.map trace_call.entry).drop (ws.length - min (ws.length % 100) 10) := by
  obtain ⟨hidx, hslots⟩ := trace_writes_ring ws s (by omega) (by omega)
  rw [h0] at hidx hslots
  have hti : (trace_writes ws s).trace_index = ((ws.length % 100 : Nat) : Int) := by
    rw [hidx]; omega
  have hn : ((if (trace_writes ws s).trace_index < 10 then (trace_writes ws s).trace_index
      else 10 : Int)).toNat = min (ws.length % 100) 10 := by
    rw [hti]; split_ifs <;> omega
  apply List.ext_getElem?
  intro j
  rw [List.getElem?_drop]
  by_cases hj : j < min (ws.length % 100) 10
  · simp only [recent_entries, recent_slots, List.map_map, List.getElem?_map, hn,
      List.getElem?_range hj, Option.map_some', Function.comp_apply]
    have hk := hslots (min (ws.length % 100) 10 - 1 - j) (by omega) (by omega)
    have hslot : Int.tmod
        (Int.tmod ((trace_writes ws s).trace_index
            - (if (trace_writes ws s).trace_index < 10 then (trace_writes ws s).trace_index
                else 10) + MAX_TRACE_LINES) MAX_TRACE_LINES + (j : Int)) MAX_TRACE_LINES
        = (0 + (ws.length : Int) - 1 - ((min (ws.length % 100) 10 - 1 - j : Nat) : Int)) % 100 := by
      have hstart : Int.tmod ((trace_writes ws s).trace_index
            - (if (trace_writes ws s).trace_index < 10 then (trace_writes ws s).trace_index
                else 10) + MAX_TRACE_LINES) MAX_TRACE_LINES
          = (trace_writes ws s).trace_index
            - (if (trace_writes ws s).trace_index < 10 then (trace_writes ws s).trace_index
                else 10) := by
        rw [MAX_TRACE_LINES, Int.tmod_eq_emod (by split_ifs <;> omega) (by omega)]
        split_ifs <;> omega
      rw [hstart, MAX_TRACE_LINES, Int.tmod_eq_emod (by split_ifs <;> omega) (by omega)]
      split_ifs <;> omega
    have hpos : ws.length - min (ws.length % 100) 10 + j
        = ws.length - 1 - (min (ws.length % 100) 10 - 1 - j) := by omega
    rw [hslot, hk, hpos]
    exact List.getElem?_map _ _ _
  · rw [List.getElem?_eq_none (by simp [recent_entries, recent_slots, hn]; omega),
      List.getElem?_eq_none (by simp; omega)]

/-- Before the ring wraps for the first time, `show_recent_trace` selects what the
specification asks for. -/
theorem recent_entries_before_wrap (ws : List trace_call) (s : Sys)
    (h0 : s.trace_index = 0) (hW : ws.length < 100) :
    recent_entries (trace_writes ws s) = recent_expected 10 ws := by
  rw [recent_entries_after_writes ws s h0, recent_expected, Nat.mod_eq_of_lt hW,
    Nat.min_eq_left (Nat.le_of_lt hW)]

theorem update_stats_seq_snoc (calls : List (Int × Nat)) (c : Int × Nat) (s : Sys) :
    update_stats_seq (calls ++ [c]) s = update_stats c.1 c.2 (update_stats_seq calls s) := by
  simp [update_stats_seq, List.foldl_append]

/-- One call of `update_stats`, field by field. -/
theorem update_stats_fields (irq_num : Int) (x : Nat) (s : Sys) :
    (update_stats irq_num x s).stats.total_interrupts
        = (s.stats.total_interrupts + 1) % ULONG_MOD
      ∧ (update_stats irq_num x s).stats.timer_interrupts
        = (if irq_num = 0 then (s.stats.timer_interrupts + 1) % ULONG_MOD
            else s.stats.timer_interrupts)
      ∧ (update_stats irq_num x s).stats.keyboard_interrupts
        = (if irq_num = 1 then (s.stats.keyboard_interrupts + 1) % ULONG_MOD
            else s.stats.keyboard_interrupts)
      ∧ (update_stats irq_num x s).stats.custom_interrupts
        = (if irq_num = 0 ∨ irq_num = 1 then s.stats.custom_interrupts
            else (s.stats.custom_interrupts + 1) % ULONG_MOD)
      ∧ (update_stats irq_num x s).stats.average_response_time
        = (if (s.stats.total_interrupts + 1) % ULONG_MOD > 0 then
            (s.stats.average_response_time
                * ((((s.stats.total_interrupts + 1) % ULONG_MOD - 1 : Nat)) : ℚ) + (x : ℚ))
              / ((((s.stats.total_interrupts + 1) % ULONG_MOD : Nat)) : ℚ)
            else s.stats.average_response_time) := by
  unfold update_stats
  simp only [IRQ_TIMER, IRQ_KEYBOARD]
  by_cases h0 : irq_num = 0
  · subst h0
    simp only [if_true, true_or]
    split_ifs <;> simp_all
  · by_cases h1 : irq_num = 1
    · subst h1
      simp only [if_true, or_true]
      split_ifs <;> simp_all
    · simp only [h0, h1, if_false, or_self]
      split_ifs <;> simp_all

/-- After `n < 2 ^ 64` calls from fresh statistics: the total is `n`, the three
buckets add up to `n`, and the mean times `n` is the sum of the samples. -/
theorem update_stats_seq_inv (now : Int) (s : Sys) (calls : List (Int × Nat))
    (hn : calls.length < ULONG_MOD) :
    (update_stats_seq calls (init_system_stats now s)).stats.total_interrupts = calls.length
      ∧ (update_stats_seq calls (init_system_stats now s)).stats.timer_interrupts
          + (update_stats_seq calls (init_system_stats now s)).stats.keyboard_interrupts
          + (update_stats_seq calls (init_system_stats now s)).stats.custom_interrupts
          = calls.length
      ∧ (update_stats_seq calls (init_system_stats now s)).stats.average_response_time
          * (calls.length : ℚ) = (((samples calls).sum : Nat) : ℚ) := by
  induction calls using List.reverseRecOn with
  | nil => simp [update_stats_seq, init_system_stats, samples]
  | append_singleton calls c ih =>
    have hlen : (calls ++ [c]).length = calls.length + 1 := by simp
    rw [hlen] at hn ⊢
    obtain ⟨ht, hb, hm⟩ := ih (by omega)
    obtain ⟨f1, f2, f3, f4, f5⟩ := update_stats_fields c.1 c.2
      (update_stats_seq calls (init_system_stats now s))
    rw [update_stats_seq_snoc]
    have hmod : (calls.length + 1) % ULONG_MOD = calls.length + 1 := Nat.mod_eq_of_lt hn
    have hM : ULONG_MOD = 18446744073709551616 := by decide
    refine ⟨by rw [f1, ht, hmod], ?_, ?_⟩
    · rw [f2, f3, f4]
      rw [hM] at hn ⊢
      split_ifs <;> omega
    · rw [f5, ht, hmod, if_pos (by omega)]
      have hpos : ((calls.length + 1 : Nat) : ℚ) ≠ 0 := by positivity
      have hsum : (samples (calls ++ [c])).sum = (samples calls).sum + c.2 := by
        simp [samples]
      rw [hsum, div_mul_cancel₀ _ hpos]
      simp only [Nat.add_sub_cancel]
      rw [hm, Nat.cast_add]

/-- After any number of calls from fresh statistics the total is the sum of the
three buckets, in `unsigned long` arithmetic. -/
theorem update_stats_seq_buckets (now : Int) (s : Sys) (calls : List (Int × Nat)) :
    (update_stats_seq calls (init_system_stats now s)).stats.total_interrupts < ULONG_MOD
      ∧ (update_stats_seq calls (init_system_stats now s)).stats.total_interrupts
          = bucket_sum (update_stats_seq calls (init_system_stats now s)).stats := by
  have hM : ULONG_MOD = 18446744073709551616 := by decide
  induction calls using List.reverseRecOn with
  | nil => simp [update_stats_seq, init_system_stats, bucket_sum, hM]
  | append_singleton calls c ih =>
    obtain ⟨hlt, hsum⟩ := ih
    obtain ⟨f1, f2, f3, f4, _⟩ := update_stats_fields c.1 c.2
      (update_stats_seq calls (init_system_stats now s))
    rw [update_stats_seq_snoc]
    unfold bucket_sum at hsum ⊢
    rw [f1, f2, f3, f4]
    rw [hM] at hlt hsum ⊢
    constructor
    · omega
    · split_ifs <;> omega

theorem add_trace_logged (ts e : CStr) (s : Sys) :
    logged_once ⟨ts, strncpy e (MAX_TRACE_MSG_LEN - 1), -1⟩ s (add_trace ts e s) :=
  ⟨rfl, rfl⟩

theorem add_trace_with_irq_logged (ts e : CStr) (n : Int) (s : Sys) :
    logged_once ⟨ts, strncpy e (MAX_TRACE_MSG_LEN - 1), n⟩ s (add_trace_with_irq ts e n s) :=
  ⟨rfl, rfl⟩

theorem add_trace_smart_logged (ts e : CStr) (n t : Int) (s : Sys) :
    logged_once ⟨ts, strncpy e (MAX_TRACE_MSG_LEN - 1), if n ≥ 0 then n else -1⟩ s
      (add_trace_smart ts e n t s) :=
  ⟨add_trace_smart_log ts e n t s, add_trace_smart_index ts e n t s⟩

theorem unregister_isr_invalid (ts : CStr) (irq_num : Int) (s : Sys)
    (hout : irq_num < 0 ∨ 16 ≤ irq_num) :
    unregister_isr ts irq_num s
      = (ERROR_INVALID_IRQ, add_trace ts (cstr "Error: Número de IRQ fuera de rango") s) := by
  unfold unregister_isr
  exact if_pos ((invalid_iff irq_num).mpr hout)

theorem register_isr_invalid (ts : CStr) (irq_num : Int) (h : Option isr_ptr) (d : CStr)
    (s : Sys) (hout : irq_num < 0 ∨ 16 ≤ irq_num) :
    register_isr ts irq_num h d s
      = (ERROR_INVALID_IRQ, add_trace ts (cstr "Error: Número de IRQ fuera de rango") s) := by
  unfold register_isr
  exact if_pos ((invalid_iff irq_num).mpr hout)

theorem dispatch_invalid (exec : isr_ptr → Int → Sys → Sys) (clk : dispatch_clock)
    (irq_num : Int) (s : Sys) (hout : irq_num < 0 ∨ 16 ≤ irq_num) :
    dispatch_interrupt exec clk irq_num s
      = add_trace_smart clk.ts_first
          (snprintf MAX_TRACE_MSG_LEN
            (cstr "Error: IRQ " ++ fmt_d irq_num ++ cstr " fuera de rango")) (-1) 0 s := by
  unfold dispatch_interrupt
  exact if_pos ((invalid_iff irq_num).mpr hout)

theorem dispatch_rejected (exec : isr_ptr → Int → Sys → Sys) (clk : dispatch_clock)
    (i : Fin MAX_INTERRUPTS) (s : Sys)
    (h : (s.idt i).state ≠ IRQ_STATE_REGISTERED ∨ (s.idt i).isr = none) :
    dispatch_interrupt exec clk (i.val : Int) s
      = add_trace_smart clk.ts_first
          (snprintf MAX_TRACE_MSG_LEN
            (cstr "Error: No hay ISR registrada para IRQ " ++ fmt_d (i.val : Int)))
          (i.val : Int) (if (i.val : Int) = IRQ_TIMER then 1 else 0) s := by
  have hb := dispatch_begin_none clk.now i s.idt h
  unfold dispatch_interrupt
  simp only [validate_of_fin, idt_slot_of_fin, hb, ne_eq, not_true_eq_false, if_false]

/-- What `add_trace_smart` sends to the output. -/
theorem add_trace_smart_stdout (ts e : CStr) (n t : Int) (s : Sys) :
    (add_trace_smart ts e n t s).stdout
      = if visible s.current_log_level (decide (s.show_timer_logs ≠ 0)) (decide (t ≠ 0)) then
          s.stdout ++ [smart_line (stored_stamp ts e (if n ≥ 0 then n else -1) s) e n]
        else s.stdout := by
  unfold add_trace_smart visible smart_line stored_stamp
  simp only [add_trace_with_irq_silent, add_trace_silent]
  by_cases hn : n ≥ 0 <;> cases hl : s.current_log_level <;> by_cases ht : t = 0
    <;> by_cases hg : s.show_timer_logs = 0
    <;> simp [hn, hl, ht, hg, trace_store, printf]

/-- Any locked section of either thread keeps the invariant of the line. -/
theorem two_threads.inv_step (i : Fin MAX_INTERRUPTS) (f : isr_ptr) (base : Int)
    (ca cb : thread_clock) (c : two_threads) (a_moves : Bool)
    (h : c.inv i f base) : (c.step i ca cb a_moves).inv i f base := by
  rcases c with ⟨idt, pa, pb⟩
  obtain ⟨hisr, hcnt, hst, hx, hra, hrb⟩ := h
  simp only [invocations] at hcnt
  cases a_moves <;> cases pa <;> cases pb <;>
    simp_all [two_threads.inv, two_threads.step, thread_step, dispatch_begin, dispatch_end,
      dispatch_pc.is_running, dispatch_pc.calls_handler, invocations]

theorem interleave_inv (i : Fin MAX_INTERRUPTS) (f : isr_ptr) (base : Int)
    (ca cb : thread_clock) (schedule : List Bool) :
    ∀ c : two_threads, c.inv i f base → (interleave i ca cb schedule c).inv i f base := by
  induction schedule with
  | nil => intro c h; exact h
  | cons m rest ih =>
    intro c h
    exact ih _ (two_threads.inv_step i f base ca cb c m h)

theorem initial_inv (i : Fin MAX_INTERRUPTS) (f : isr_ptr) (t : idt_t)
    (hst : (t i).state = IRQ_STATE_REGISTERED) (hisr : (t i).isr = some f) :
    two_threads.inv i f (t i).call_count ⟨t, .ready, .ready⟩ := by
  simp [two_threads.inv, invocations, dispatch_pc.is_running, dispatch_pc.calls_handler, hst,
    hisr]

theorem slot_ne_of_val_ne (irq_num : Int) (j : Fin MAX_INTERRUPTS)
    (hv : validate_irq_num irq_num = SUCCESS) (hj : (j.val : Int) ≠ irq_num) :
    j ≠ idt_slot irq_num := by
  intro h
  apply hj
  rw [h]
  exact idt_slot_val irq_num hv

theorem register_isr_other (ts : CStr) (irq_num : Int) (h : Option isr_ptr) (d : CStr) (s : Sys)
    (j : Fin MAX_INTERRUPTS) (hj : (j.val : Int) ≠ irq_num) :
    (register_isr ts irq_num h d s).2.idt j = s.idt j := by
  unfold register_isr
  by_cases hv : validate_irq_num irq_num = SUCCESS
  · have hne := slot_ne_of_val_ne irq_num j hv hj
    simp only [hv, ne_eq, not_true_eq_false, if_false]
    cases hl : register_isr_locked (idt_slot irq_num) h d s.idt with
    | none => simp
    | some t1 =>
      obtain ⟨_, rfl⟩ := register_locked_some _ h d s.idt t1 hl
      simp [Function.update_noteq hne]
  · simp [hv]

theorem unregister_isr_other (ts : CStr) (irq_num : Int) (s : Sys)
    (j : Fin MAX_INTERRUPTS) (hj : (j.val : Int) ≠ irq_num) :
    (unregister_isr ts irq_num s).2.idt j = s.idt j := by
  unfold unregister_isr
  by_cases hv : validate_irq_num irq_num = SUCCESS
  · have hne := slot_ne_of_val_ne irq_num j hv hj
    simp only [hv, ne_eq, not_true_eq_false, if_false]
    cases hl : unregister_isr_locked (idt_slot irq_num) irq_num s.idt with
    | none => simp
    | some t1 =>
      obtain ⟨_, rfl⟩ := unregister_locked_some _ irq_num s.idt t1 hl
      simp [Function.update_noteq hne]
  · simp [hv]

theorem dispatch_interrupt_other (exec : isr_ptr → Int → Sys → Sys)
    (hexec : ∀ f n t, (exec f n t).idt = t.idt) (clk : dispatch_clock) (irq_num : Int)
    (s : Sys) (j : Fin MAX_INTERRUPTS) (hj : (j.val : Int) ≠ irq_num) :
    (dispatch_interrupt exec clk irq_num s).idt j = s.idt j := by
  unfold dispatch_interrupt
  by_cases hv : validate_irq_num irq_num = SUCCESS
  · have hne := slot_ne_of_val_ne irq_num j hv hj
    simp only [hv, ne_eq, not_true_eq_false, if_false]
    cases hb : dispatch_begin clk.now (idt_slot irq_num) s.idt with
    | none => simp
    | some p =>
      obtain ⟨f, t1⟩ := p
      obtain ⟨_, _, rfl⟩ := dispatch_begin_some _ _ f s.idt t1 hb
      simp [hexec, dispatch_end, Function.update_noteq hne]
  · simp [hv]

/-- C division by 1000, through floor division: it rounds towards zero. -/
theorem tdiv_1000 (a : Int) :
    (0 ≤ a → Int.tdiv a 1000 = a / 1000) ∧ (a < 0 → Int.tdiv a 1000 = -((-a) / 1000)) := by
  constructor
  · intro h
    exact Int.tdiv_eq_ediv h (by omega)
  · intro h
    have h1 : Int.tdiv (-(-a)) 1000 = -(Int.tdiv (-a) 1000) := Int.neg_tdiv _ _
    rw [neg_neg] at h1
    rw [h1, Int.tdiv_eq_ediv (by omega) (by omega)]

theorem elapsed_us_of_long (start_time end_time : timespec)
    (h0 : 0 ≤ elapsed_long start_time end_time)
    (h1 : elapsed_long start_time end_time < 18446744073709551616) :
    ((elapsed_us start_time end_time : Nat) : Int) = elapsed_long start_time end_time := by
  have hM : ((ULONG_MOD : Nat) : Int) = 18446744073709551616 := by decide
  have hdef : elapsed_us start_time end_time
      = (elapsed_long start_time end_time % ((ULONG_MOD : Nat) : Int)).toNat := rfl
  rw [hdef, hM]
  omega

/-- On tables reached by locked sections, every Free descriptor has no handler, both
counters 0 and the placeholder description of its line. -/
theorem table_reachable.free_clean (ok : Option isr_ptr → Prop) (t : idt_t)
    (hr : table_reachable ok t) (j : Fin MAX_INTERRUPTS) : free_is_clean j (t j) := by
  induction hr with
  | init => intro _; exact ⟨rfl, rfl, rfl, rfl⟩
  | register i h d t t1 _ _ hl ih =>
    obtain ⟨_, rfl⟩ := register_locked_some i h d t t1 hl
    by_cases hj : j = i
    · subst hj; intro hf; simp at hf
    · simpa [Function.update_noteq hj] using ih
  | unregister i t t1 _ hl ih =>
    obtain ⟨_, rfl⟩ := unregister_locked_some i _ t t1 hl
    by_cases hj : j = i
    · subst hj; intro _; simp
    · simpa [Function.update_noteq hj] using ih
  | dispatch_begin now i f t t1 _ hl ih =>
    obtain ⟨_, _, rfl⟩ := dispatch_begin_some now i f t t1 hl
    by_cases hj : j = i
    · subst hj; intro hf; simp at hf
    · simpa [Function.update_noteq hj] using ih
  | dispatch_end i x t _ _ ih =>
    unfold InterruptSimulator.dispatch_end
    by_cases hj : j = i
    · subst hj; intro hf; simp at hf
    · simpa [Function.update_noteq hj] using ih

/-- Registering and at once unregistering a line whose descriptor is Free and clean
gives back the table. -/
theorem register_unregister_restores (ts1 ts2 : CStr) (i : Fin MAX_INTERRUPTS)
    (h : Option isr_ptr) (d : CStr) (s : Sys)
    (hfree : (s.idt i).state = IRQ_STATE_FREE) (hclean : free_is_clean i (s.idt i)) :
    (register_isr ts1 (i.val : Int) h d s).1 = SUCCESS
      ∧ (unregister_isr ts2 (i.val : Int) (register_isr ts1 (i.val : Int) h d s).2).1 = SUCCESS
      ∧ (unregister_isr ts2 (i.val : Int) (register_isr ts1 (i.val : Int) h d s).2).2.idt
          = s.idt := by
  have hidle : (s.idt i).state ≠ IRQ_STATE_EXECUTING := by rw [hfree]; decide
  have hreg := register_isr_ok ts1 i h d s hidle
  have hidle2 : ((register_isr ts1 (i.val : Int) h d s).2.idt i).state ≠ IRQ_STATE_EXECUTING := by
    rw [hreg]; simp
  have hun := unregister_isr_ok ts2 i (register_isr ts1 (i.val : Int) h d s).2 hidle2
  refine ⟨by rw [hreg], by rw [hun], ?_⟩
  obtain ⟨c1, c2, c3, c4⟩ := hclean hfree
  rw [hun]
  simp only [add_trace_with_irq_idt]
  rw [hreg]
  simp only [add_trace_with_irq_idt, Function.update_same, Function.update_idem]
  funext j
  by_cases hj : j = i
  · subst hj
    rw [Function.update_same]
    cases hd : s.idt j with
    | mk a b c l e g =>
      rw [hd] at c1 c2 c3 c4 hfree
      simp only at c1 c2 c3 c4 hfree
      subst c1 c2 c3 c4 hfree
      rfl
  · rw [Function.update_noteq hj]

/-- After `register_isr`, a run of dispatches with handler code that leaves the table
alone: the line is Registered, the call count is the wrapped number of calls and
the total is the wrapped sum of the measured times. -/
theorem register_then_dispatch_idt (ts : CStr) (i : Fin MAX_INTERRUPTS) (f : isr_ptr)
    (d : CStr) (s : Sys) (cs : List dispatch_env)
    (hidle : (s.idt i).state ≠ IRQ_STATE_EXECUTING)
    (hcs : ∀ e ∈ cs, ∀ n t, (e.1 f n t).idt = t.idt) :
    ((dispatch_repeat (i.val : Int) cs
        (register_isr ts (i.val : Int) (some f) d s).2).idt i).state = IRQ_STATE_REGISTERED
      ∧ ((dispatch_repeat (i.val : Int) cs
        (register_isr ts (i.val : Int) (some f) d s).2).idt i).call_count
          = int_wrap (cs.length : Int)
      ∧ ((dispatch_repeat (i.val : Int) cs
        (register_isr ts (i.val : Int) (some f) d s).2).idt i).total_execution_time
          = (measured cs).sum % ULONG_MOD := by
  have hreg := register_isr_ok ts i (some f) d s hidle
  have h := dispatch_repeat_registered i f cs (register_isr ts (i.val : Int) (some f) d s).2 hcs
    (by rw [hreg]; simp) (by rw [hreg]; simp) (by rw [hreg]; simp; decide)
  obtain ⟨h1, _, h3, h4⟩ := h
  refine ⟨h1, ?_, ?_⟩
  · rw [h3, hreg]
    simp only [add_trace_with_irq_idt, Function.update_same]
    rw [count_after_wrap 0 cs.length (by omega) (by omega), zero_add]
  · rw [h4, hreg]; simp

/-- The handler stays installed through a run of dispatches after `register_isr`. -/
theorem register_then_dispatch_isr (ts : CStr) (i : Fin MAX_INTERRUPTS) (f : isr_ptr)
    (d : CStr) (s : Sys) (cs : List dispatch_env)
    (hidle : (s.idt i).state ≠ IRQ_STATE_EXECUTING)
    (hcs : ∀ e ∈ cs, ∀ n t, (e.1 f n t).idt = t.idt) :
    ((dispatch_repeat (i.val : Int) cs
        (register_isr ts (i.val : Int) (some f) d s).2).idt i).isr = some f := by
  have hreg := register_isr_ok ts i (some f) d s hidle
  exact (dispatch_repeat_registered i f cs (register_isr ts (i.val : Int) (some f) d s).2 hcs
    (by rw [hreg]; simp) (by rw [hreg]; simp) (by rw [hreg]; simp; decide)).2.1

/-- The state in which `dispatch_interrupt` calls the handler of a Registered line,
and what the call is in terms of the handler's result there. -/
theorem dispatch_enters_handler (clk : dispatch_clock) (i : Fin MAX_INTERRUPTS)
    (f : isr_ptr) (s : Sys)
    (hst : (s.idt i).state = IRQ_STATE_REGISTERED) (hisr : (s.idt i).isr = some f) :
    ∃ s1 : Sys,
      (∀ exec : isr_ptr → Int → Sys → Sys,
          dispatch_interrupt exec clk (i.val : Int) s
            = add_trace_smart clk.ts_last
                (snprintf MAX_TRACE_MSG_LEN
                  (cstr "<<< FINALIZANDO IRQ " ++ fmt_d (i.val : Int)
                    ++ cstr " - Retorno al flujo principal (Tiempo: "
                    ++ fmt_lu (elapsed_us clk.start_time clk.end_time) ++ cstr " μs)"))
                (i.val : Int) (if (i.val : Int) = IRQ_TIMER then 1 else 0)
                (update_stats (i.val : Int) (elapsed_us clk.start_time clk.end_time)
                  { exec f (i.val : Int) s1 with
                    idt := dispatch_end i (elapsed_us clk.start_time clk.end_time)
                      (exec f (i.val : Int) s1).idt }))
        ∧ handler_entry clk (i.val : Int) s = some (f, s1)
        ∧ s1.idt = Function.update s.idt i
            { s.idt i with
              state := IRQ_STATE_EXECUTING
              call_count := int_wrap ((s.idt i).call_count + 1)
              last_call := clk.now } := by
  have hentry : ∃ s1, handler_entry clk (i.val : Int) s = some (f, s1)
      ∧ s1.idt = Function.update s.idt i
          { s.idt i with
            state := IRQ_STATE_EXECUTING
            call_count := int_wrap ((s.idt i).call_count + 1)
            last_call := clk.now } := by
    unfold handler_entry
    simp only [validate_of_fin, idt_slot_of_fin, ne_eq, not_true_eq_false, if_false,
      dispatch_begin, hst, hisr]
    exact ⟨_, rfl, by simp⟩
  obtain ⟨s1, he, hidt⟩ := hentry
  refine ⟨s1, ?_, he, hidt⟩
  intro exec
  have he2 := he
  unfold handler_entry at he2
  simp only [validate_of_fin, idt_slot_of_fin, ne_eq, not_true_eq_false, if_false,
    dispatch_begin, hst, hisr, Option.some.injEq, Prod.mk.injEq, true_and] at he2
  unfold dispatch_interrupt
  simp only [validate_of_fin, idt_slot_of_fin, ne_eq, not_true_eq_false, if_false,
    dispatch_begin, hst, hisr]
  rw [he2]

/-! ## Claims -/

/-- C1. On a valid line whose descriptor is not dispatchable (state Free or
Executing, or no handler installed) `dispatch_interrupt` calls no handler: whatever
code the function pointers stand for, the result is the state with the one
rejection entry traced, so the whole descriptor table (the call count and every
other field of that descriptor, every other descriptor) and the statistics are as
before. -/
theorem dispatch_not_dispatchable_inert (exec : isr_ptr → Int → Sys → Sys)
    (clk : dispatch_clock) (i : Fin MAX_INTERRUPTS) (s : Sys)
    (h : (s.idt i).state = IRQ_STATE_FREE ∨ (s.idt i).state = IRQ_STATE_EXECUTING
      ∨ (s.idt i).isr = none) :
    dispatch_interrupt exec clk (i.val : Int) s
        = add_trace_smart clk.ts_first
            (snprintf MAX_TRACE_MSG_LEN
              (cstr "Error: No hay ISR registrada para IRQ " ++ fmt_d (i.val : Int)))
            (i.val : Int) (if (i.val : Int) = IRQ_TIMER then 1 else 0) s
      ∧ (∀ exec2 : isr_ptr → Int → Sys → Sys,
          dispatch_interrupt exec2 clk (i.val : Int) s = dispatch_interrupt exec clk (i.val : Int) s)
      ∧ (dispatch_interrupt exec clk (i.val : Int) s).idt = s.idt
      ∧ ((dispatch_interrupt exec clk (i.val : Int) s).idt i).call_count = (s.idt i).call_count
      ∧ (dispatch_interrupt exec clk (i.val : Int) s).stats = s.stats := by
  have hb : dispatch_begin clk.now i s.idt = none := by
    apply dispatch_begin_none
    rcases h with h | h | h
    · left; rw [h]; decide
    · left; rw [h]; decide
    · right; exact h
  have key : ∀ ex : isr_ptr → Int → Sys → Sys,
      dispatch_interrupt ex clk (i.val : Int) s
        = add_trace_smart clk.ts_first
            (snprintf MAX_TRACE_MSG_LEN
              (cstr "Error: No hay ISR registrada para IRQ " ++ fmt_d (i.val : Int)))
            (i.val : Int) (if (i.val : Int) = IRQ_TIMER then 1 else 0) s := by
    intro ex
    unfold dispatch_interrupt
    simp only [validate_of_fin, idt_slot_of_fin, hb, ne_eq, not_true_eq_false, if_false]
  refine ⟨key exec, fun ex => by rw [key ex, key exec], ?_, ?_, ?_⟩
  · rw [key exec]; simp
  · rw [key exec]; simp
  · rw [key exec]; simp

/-- C1, at a concrete input: line 5 of the freshly initialised table is Free. -/
theorem dispatch_not_dispatchable_inert_witness :
    ((init_idt [] boot).idt 5).state = IRQ_STATE_FREE
      ∧ (dispatch_interrupt (predefined_exec []) ⟨[], 0, ⟨0, 0⟩, ⟨0, 0⟩, []⟩
            ((5 : Fin MAX_INTERRUPTS).val : Int) (init_idt [] boot)).idt
          = (init_idt [] boot).idt :=
  ⟨rfl, (dispatch_not_dispatchable_inert (predefined_exec []) ⟨[], 0, ⟨0, 0⟩, ⟨0, 0⟩, []⟩ 5
    (init_idt [] boot) (Or.inl rfl)).2.2.1⟩

/-- C2, as the claim states it, fails past `INT_MAX`: `call_count` is a C `int`, and
after `2147483648` dispatches of line 2 it holds `-2147483648`, not the number of
dispatches. -/
theorem call_count_wraps_past_int_max :
    ((init_idt [] boot).idt 2).state ≠ IRQ_STATE_EXECUTING
      ∧ (∀ e ∈ many_calls, ∀ n t, (e.1 custom_isr_ptr n t).idt = t.idt)
      ∧ many_calls.length = 2147483648
      ∧ ((dispatch_repeat ((2 : Fin MAX_INTERRUPTS).val : Int) many_calls
            (register_isr [] ((2 : Fin MAX_INTERRUPTS).val : Int) (some custom_isr_ptr)
              (cstr "Test ISR 1") (init_idt [] boot)).2).idt 2).call_count = -2147483648
      ∧ ((dispatch_repeat ((2 : Fin MAX_INTERRUPTS).val : Int) many_calls
            (register_isr [] ((2 : Fin MAX_INTERRUPTS).val : Int) (some custom_isr_ptr)
              (cstr "Test ISR 1") (init_idt [] boot)).2).idt 2).call_count
          ≠ (many_calls.length : Int) := by
  have hlen : many_calls.length = 2147483648 := by
    unfold many_calls
    exact List.length_replicate _ _
  have hex : ∀ e ∈ many_calls, ∀ n t, (e.1 custom_isr_ptr n t).idt = t.idt := by
    intro e he n t
    have he2 := List.eq_of_mem_replicate he
    rw [he2]; exact predefined_exec_idt _ _ _ _
  have hcount := (register_then_dispatch_idt [] 2 custom_isr_ptr (cstr "Test ISR 1")
    (init_idt [] boot) many_calls (by decide) hex).2.1
  have hval : int_wrap ((many_calls.length : Nat) : Int) = -2147483648 := by
    rw [hlen]; unfold int_wrap; omega
  refine ⟨by decide, hex, hlen, ?_, ?_⟩
  · rw [hcount, hval]
  · rw [hcount, hval, hlen]; omega

/-- C2, amended. After `register_isr` installs a handler `f` on a valid line (one that
is not executing), any run of `K` sequential dispatches of that line, with handler
code that leaves the descriptor table alone, leaves the line Registered after each
call, with `call_count = k` after each of its first `k` calls and `call_count = K` at
the end as long as these numbers are within the range of `int` (at most
`2147483647`), and ends with `total_execution_time` equal to the sum of the `K`
measured elapsed times (in `unsigned long` arithmetic, hence the sum itself when it
is below `2 ^ 64`), which is `K * t` when every call measures the same `t`. -/
theorem register_then_dispatch_counts (ts : CStr) (i : Fin MAX_INTERRUPTS) (f : isr_ptr)
    (d : CStr) (s : Sys) (calls : List dispatch_env)
    (hidle : (s.idt i).state ≠ IRQ_STATE_EXECUTING)
    (hexec : ∀ e ∈ calls, ∀ n t, (e.1 f n t).idt = t.idt) :
    (∀ k, k ≤ calls.length →
        ((dispatch_repeat (i.val : Int) (calls.take k)
            (register_isr ts (i.val : Int) (some f) d s).2).idt i).state = IRQ_STATE_REGISTERED
        ∧ (k ≤ 2147483647 →
            ((dispatch_repeat (i.val : Int) (calls.take k)
              (register_isr ts (i.val : Int) (some f) d s).2).idt i).call_count = (k : Int)))
      ∧ (calls.length ≤ 2147483647 →
          ((dispatch_repeat (i.val : Int) calls
            (register_isr ts (i.val : Int) (some f) d s).2).idt i).call_count
          = (calls.length : Int))
      ∧ ((dispatch_repeat (i.val : Int) calls
            (register_isr ts (i.val : Int) (some f) d s).2).idt i).total_execution_time
          = (measured calls).sum % ULONG_MOD
      ∧ ((measured calls).sum < ULONG_MOD →
          ((dispatch_repeat (i.val : Int) calls
            (register_isr ts (i.val : Int) (some f) d s).2).idt i).total_execution_time
          = (measured calls).sum)
      ∧ (∀ t, (∀ x ∈ measured calls, x = t) → calls.length * t < ULONG_MOD →
          ((dispatch_repeat (i.val : Int) calls
            (register_isr ts (i.val : Int) (some f) d s).2).idt i).total_execution_time
          = calls.length * t) := by
  have hall := register_then_dispatch_idt ts i f d s calls hidle hexec
  refine ⟨?_, ?_, hall.2.2, ?_, ?_⟩
  · intro k hk
    have hk2 := register_then_dispatch_idt ts i f d s (calls.take k) hidle
      (fun e he => hexec e (List.mem_of_mem_take he))
    refine ⟨hk2.1, fun hmax => ?_⟩
    rw [hk2.2.1, List.length_take, Nat.min_eq_left hk]
    exact int_wrap_of_range _ (by omega) (by omega)
  · intro hmax
    rw [hall.2.1]
    exact int_wrap_of_range _ (by omega) (by omega)
  · intro hlt
    rw [hall.2.2, Nat.mod_eq_of_lt hlt]
  · intro t ht hlt
    rw [hall.2.2, sum_replicate_like _ t ht]
    simp only [measured, List.length_map]
    exact Nat.mod_eq_of_lt hlt

/-- C2 amended, the scenario of the test suite: line 2 registered with `custom_isr`
and dispatched 3 times ends with `call_count = 3`. -/
theorem register_then_dispatch_counts_witness :
    ((init_idt [] boot).idt 2).state ≠ IRQ_STATE_EXECUTING
      ∧ (∀ e ∈ three_calls, ∀ n t, (e.1 custom_isr_ptr n t).idt = t.idt)
      ∧ three_calls.length ≤ 2147483647
      ∧ ((dispatch_repeat ((2 : Fin MAX_INTERRUPTS).val : Int) three_calls
            (register_isr [] ((2 : Fin MAX_INTERRUPTS).val : Int) (some custom_isr_ptr)
              (cstr "Test ISR 1") (init_idt [] boot)).2).idt 2).call_count
          = (three_calls.length : Int) :=
  ⟨by decide,
   fun e he n t => by
     have he2 : e = (predefined_exec [], ⟨[], 0, ⟨0, 0⟩, ⟨0, 8000000⟩, []⟩) := by
       simpa [three_calls] using he
     rw [he2]; exact predefined_exec_idt _ _ _ _,
   by decide,
   (register_then_dispatch_counts [] 2 custom_isr_ptr (cstr "Test ISR 1") (init_idt [] boot)
      three_calls (by decide)
      (fun e he n t => by
        have he2 : e = (predefined_exec [], ⟨[], 0, ⟨0, 0⟩, ⟨0, 8000000⟩, []⟩) := by
          simpa [three_calls] using he
        rw [he2]; exact predefined_exec_idt _ _ _ _)).2.1 (by decide)⟩

/-- C3. On a valid line that is Executing, `register_isr` and `unregister_isr` both
return `ERROR_ISR_EXECUTING` and leave the descriptor of the line (handler, state,
call count, last call, total execution time, description), and with it the whole
table, unchanged. -/
theorem busy_line_rejects_registration (ts : CStr) (i : Fin MAX_INTERRUPTS)
    (h : Option isr_ptr) (d : CStr) (s : Sys)
    (hex : (s.idt i).state = IRQ_STATE_EXECUTING) :
    (register_isr ts (i.val : Int) h d s).1 = ERROR_ISR_EXECUTING
      ∧ (register_isr ts (i.val : Int) h d s).2.idt i = s.idt i
      ∧ (register_isr ts (i.val : Int) h d s).2.idt = s.idt
      ∧ (unregister_isr ts (i.val : Int) s).1 = ERROR_ISR_EXECUTING
      ∧ (unregister_isr ts (i.val : Int) s).2.idt i = s.idt i
      ∧ (unregister_isr ts (i.val : Int) s).2.idt = s.idt := by
  rw [register_isr_busy ts i h d s hex, unregister_isr_busy ts i s hex]
  simp

/-- C3, at a concrete input: line 3 in the middle of its dispatch. -/
theorem busy_line_rejects_registration_witness :
    (mid_dispatch.idt 3).state = IRQ_STATE_EXECUTING
      ∧ (register_isr [] ((3 : Fin MAX_INTERRUPTS).val : Int) (some error_isr_ptr) [] mid_dispatch).1
          = ERROR_ISR_EXECUTING
      ∧ (unregister_isr [] ((3 : Fin MAX_INTERRUPTS).val : Int) mid_dispatch).1
          = ERROR_ISR_EXECUTING :=
  have hw := busy_line_rejects_registration [] 3 (some error_isr_ptr) [] mid_dispatch (by decide)
  ⟨by decide, hw.1, hw.2.2.2.1⟩

/-- C4. On a valid line that is not Executing (Free or already Registered), for
every handler `h` (null included) and every description `d` shorter than 64 bytes,
`register_isr` returns `SUCCESS` and the descriptor then has handler `h`, state
Registered, call count 0, total execution time 0 and description `d`; its last-call
stamp, and every other descriptor, are as before. -/
theorem register_isr_installs (ts : CStr) (i : Fin MAX_INTERRUPTS) (h : Option isr_ptr)
    (d : CStr) (s : Sys)
    (hidle : (s.idt i).state ≠ IRQ_STATE_EXECUTING) (hd : d.length < 64) :
    (register_isr ts (i.val : Int) h d s).1 = SUCCESS
      ∧ (register_isr ts (i.val : Int) h d s).2.idt i
          = { isr := h, state := IRQ_STATE_REGISTERED, call_count := 0,
              last_call := (s.idt i).last_call, total_execution_time := 0, description := d }
      ∧ (∀ j, j ≠ i → (register_isr ts (i.val : Int) h d s).2.idt j = s.idt j) := by
  rw [register_isr_ok ts i h d s hidle]
  refine ⟨rfl, ?_, ?_⟩
  · have hcopy : strncpy d (MAX_DESCRIPTION_LEN - 1) = d := by
      unfold strncpy
      apply List.take_of_length_le
      simp only [MAX_DESCRIPTION_LEN]
      omega
    simp [hcopy]
  · intro j hj
    simp [Function.update_noteq hj]

/-- C4, at a concrete input: the registration `main` makes for the keyboard line. -/
theorem register_isr_installs_witness :
    ((init_idt [] boot).idt 1).state ≠ IRQ_STATE_EXECUTING
      ∧ (cstr "Controlador de Teclado").length < 64
      ∧ (register_isr [] ((1 : Fin MAX_INTERRUPTS).val : Int) (some keyboard_isr_ptr)
          (cstr "Controlador de Teclado") (init_idt [] boot)).1 = SUCCESS :=
  ⟨by decide, by decide,
    (register_isr_installs [] 1 (some keyboard_isr_ptr) (cstr "Controlador de Teclado")
      (init_idt [] boot) (by decide) (by decide)).1⟩

/-- C5, as the claim states it, fails: neither `register_isr` nor `unregister_isr`
writes `last_call`. After one dispatch of the keyboard line at time 45296,
registering and at once unregistering line 1 leaves its descriptor Free with the
placeholder and both counters 0, but with `last_call = 45296`, where `init_idt`
creates it with `last_call = 0`. -/
theorem round_trip_keeps_last_call :
    (dispatched_once.idt 1).state = IRQ_STATE_REGISTERED
      ∧ (dispatched_once.idt 1).last_call = 45296
      ∧ (register_isr [] 1 (some custom_isr_ptr) (cstr "ISR Personalizada 1") dispatched_once).1
          = SUCCESS
      ∧ (unregister_isr [] 1
          (register_isr [] 1 (some custom_isr_ptr) (cstr "ISR Personalizada 1")
            dispatched_once).2).1 = SUCCESS
      ∧ ((unregister_isr [] 1
          (register_isr [] 1 (some custom_isr_ptr) (cstr "ISR Personalizada 1")
            dispatched_once).2).2.idt 1).last_call = 45296
      ∧ (init_idt_table 1).last_call = 0
      ∧ (unregister_isr [] 1
          (register_isr [] 1 (some custom_isr_ptr) (cstr "ISR Personalizada 1")
            dispatched_once).2).2.idt 1 ≠ init_idt_table 1 := by
  refine ⟨by decide, by decide, by decide, by decide, by decide, by decide, ?_⟩
  intro h
  have h2 := congrArg irq_descriptor_t.last_call h
  revert h2
  decide

/-- C5, amended. On a valid line `i` that is not Executing, `unregister_isr` returns
`SUCCESS` and leaves the descriptor with no handler, state Free, call count 0, total
execution time 0 and the placeholder description `IRQ i - No asignado`, and with the
last-call stamp it had. Hence `register_isr` followed at once by `unregister_isr`
leaves the descriptor as `init_idt` creates it in handler, state, both counters and
description, while the last-call stamp is the one the line had before the two
calls: the descriptor is the initial one exactly when that stamp is 0. -/
theorem unregister_isr_resets (ts : CStr) (i : Fin MAX_INTERRUPTS) (s : Sys)
    (hidle : (s.idt i).state ≠ IRQ_STATE_EXECUTING) :
    ((unregister_isr ts (i.val : Int) s).1 = SUCCESS
      ∧ (unregister_isr ts (i.val : Int) s).2.idt i
          = { isr := none, state := IRQ_STATE_FREE, call_count := 0,
              last_call := (s.idt i).last_call, total_execution_time := 0,
              description := cstr "IRQ " ++ fmt_d (i.val : Int) ++ cstr " - No asignado" })
      ∧ (∀ (ts1 : CStr) (h : Option isr_ptr) (d : CStr),
          (register_isr ts1 (i.val : Int) h d s).1 = SUCCESS
          ∧ (unregister_isr ts (i.val : Int) (register_isr ts1 (i.val : Int) h d s).2).1 = SUCCESS
          ∧ (unregister_isr ts (i.val : Int) (register_isr ts1 (i.val : Int) h d s).2).2.idt i
              = { init_idt_table i with last_call := (s.idt i).last_call }
          ∧ ((unregister_isr ts (i.val : Int) (register_isr ts1 (i.val : Int) h d s).2).2.idt i).isr
              = (init_idt_table i).isr
          ∧ ((unregister_isr ts (i.val : Int) (register_isr ts1 (i.val : Int) h d s).2).2.idt i).state
              = (init_idt_table i).state
          ∧ ((unregister_isr ts (i.val : Int)
                (register_isr ts1 (i.val : Int) h d s).2).2.idt i).call_count
              = (init_idt_table i).call_count
          ∧ ((unregister_isr ts (i.val : Int)
                (register_isr ts1 (i.val : Int) h d s).2).2.idt i).total_execution_time
              = (init_idt_table i).total_execution_time
          ∧ ((unregister_isr ts (i.val : Int)
                (register_isr ts1 (i.val : Int) h d s).2).2.idt i).description
              = (init_idt_table i).description
          ∧ ((unregister_isr ts (i.val : Int)
                (register_isr ts1 (i.val : Int) h d s).2).2.idt i).last_call
              = (s.idt i).last_call
          ∧ ((unregister_isr ts (i.val : Int) (register_isr ts1 (i.val : Int) h d s).2).2.idt i
                = init_idt_table i
              ↔ (s.idt i).last_call = 0)) := by
  constructor
  · rw [unregister_isr_ok ts i s hidle]
    refine ⟨rfl, ?_⟩
    simp [placeholder_text]
  · intro ts1 h d
    have hreg := register_isr_ok ts1 i h d s hidle
    have hidle2 : ((register_isr ts1 (i.val : Int) h d s).2.idt i).state ≠ IRQ_STATE_EXECUTING := by
      rw [hreg]; simp
    have hlast : ((register_isr ts1 (i.val : Int) h d s).2.idt i).last_call
        = (s.idt i).last_call := by
      rw [hreg]; simp
    have hun := unregister_isr_ok ts i (register_isr ts1 (i.val : Int) h d s).2 hidle2
    have hdesc : (unregister_isr ts (i.val : Int) (register_isr ts1 (i.val : Int) h d s).2).2.idt i
        = { init_idt_table i with last_call := (s.idt i).last_call } := by
      rw [hun]; simp [init_idt_table, hlast]
    refine ⟨by rw [hreg], by rw [hun], hdesc, ?_, ?_, ?_, ?_, ?_, ?_, ?_⟩
    · rw [hdesc]
    · rw [hdesc]
    · rw [hdesc]
    · rw [hdesc]
    · rw [hdesc]
    · rw [hdesc]
    · rw [hdesc]
      constructor
      · intro heq
        have h2 := congrArg irq_descriptor_t.last_call heq
        simpa [init_idt_table] using h2
      · intro h0
        rw [h0]
        rfl

/-- C5 amended, at a concrete input: the keyboard line after its dispatch at time
45296 is unregistered; the stamp stays. -/
theorem unregister_isr_resets_witness :
    (dispatched_once.idt 1).state ≠ IRQ_STATE_EXECUTING
      ∧ (unregister_isr [] ((1 : Fin MAX_INTERRUPTS).val : Int) dispatched_once).1 = SUCCESS
      ∧ (unregister_isr [] ((1 : Fin MAX_INTERRUPTS).val : Int) dispatched_once).2.idt 1
          = { isr := none, state := IRQ_STATE_FREE, call_count := 0,
              last_call := (dispatched_once.idt 1).last_call, total_execution_time := 0,
              description := cstr "IRQ " ++ fmt_d ((1 : Fin MAX_INTERRUPTS).val : Int)
                ++ cstr " - No asignado" }
      ∧ (dispatched_once.idt 1).last_call = 45296 :=
  ⟨by decide, (unregister_isr_resets [] 1 dispatched_once (by decide)).1.1,
    (unregister_isr_resets [] 1 dispatched_once (by decide)).1.2, by decide⟩

/-- C6. For a line index outside `[0, 16)`, `register_isr` returns
`ERROR_INVALID_IRQ`; it only traces the error, so every descriptor of the table and
the statistics are exactly as before the call. -/
theorem register_isr_invalid_line (ts : CStr) (irq_num : Int) (h : Option isr_ptr) (d : CStr)
    (s : Sys) (hout : irq_num < 0 ∨ 16 ≤ irq_num) :
    (register_isr ts irq_num h d s).1 = ERROR_INVALID_IRQ
      ∧ (register_isr ts irq_num h d s).2.idt = s.idt
      ∧ (register_isr ts irq_num h d s).2.stats = s.stats
      ∧ (register_isr ts irq_num h d s).2
          = add_trace ts (cstr "Error: Número de IRQ fuera de rango") s := by
  have hv := (invalid_iff irq_num).mpr hout
  unfold register_isr
  rw [if_pos hv]
  simp only [add_trace_idt, add_trace_stats, and_self]

/-- C6, at concrete inputs: the index 16. -/
theorem register_isr_invalid_line_witness :
    ((16 : Int) < 0 ∨ (16 : Int) ≤ 16)
      ∧ (register_isr [] 16 (some custom_isr_ptr) [] (init_idt [] boot)).1 = ERROR_INVALID_IRQ :=
  ⟨by decide,
    (register_isr_invalid_line [] 16 (some custom_isr_ptr) [] (init_idt [] boot) (by decide)).1⟩

/-- C7. For a line index outside `[0, 16)`, `dispatch_interrupt` writes one trace
entry, `Error: IRQ n fuera de rango` with no line tag, in the slot at `trace_index`,
calls no handler (the result does not depend on the code behind the function
pointers), and leaves the descriptor table and the statistics unchanged. -/
theorem dispatch_invalid_line (exec : isr_ptr → Int → Sys → Sys) (clk : dispatch_clock)
    (irq_num : Int) (s : Sys) (hout : irq_num < 0 ∨ 16 ≤ irq_num) :
    (dispatch_interrupt exec clk irq_num s).trace_log
        = Function.update s.trace_log s.trace_index
            ⟨clk.ts_first,
              strncpy (snprintf MAX_TRACE_MSG_LEN
                (cstr "Error: IRQ " ++ fmt_d irq_num ++ cstr " fuera de rango"))
                (MAX_TRACE_MSG_LEN - 1),
              -1⟩
      ∧ (dispatch_interrupt exec clk irq_num s).trace_index
          = Int.tmod (s.trace_index + 1) MAX_TRACE_LINES
      ∧ (∀ exec2 : isr_ptr → Int → Sys → Sys,
          dispatch_interrupt exec2 clk irq_num s = dispatch_interrupt exec clk irq_num s)
      ∧ dispatch_interrupt exec clk irq_num s
          = add_trace_smart clk.ts_first
              (snprintf MAX_TRACE_MSG_LEN
                (cstr "Error: IRQ " ++ fmt_d irq_num ++ cstr " fuera de rango")) (-1) 0 s
      ∧ (dispatch_interrupt exec clk irq_num s).idt = s.idt
      ∧ (dispatch_interrupt exec clk irq_num s).stats = s.stats := by
  have hv := (invalid_iff irq_num).mpr hout
  have key : ∀ ex : isr_ptr → Int → Sys → Sys,
      dispatch_interrupt ex clk irq_num s
        = add_trace_smart clk.ts_first
            (snprintf MAX_TRACE_MSG_LEN
              (cstr "Error: IRQ " ++ fmt_d irq_num ++ cstr " fuera de rango")) (-1) 0 s := by
    intro ex
    unfold dispatch_interrupt
    exact if_pos hv
  refine ⟨?_, ?_, fun ex => by rw [key ex, key exec], key exec, ?_, ?_⟩
  · rw [key exec, add_trace_smart_log]; simp
  · rw [key exec, add_trace_smart_index]
  · rw [key exec]; simp
  · rw [key exec]; simp

/-- C7, at concrete inputs: the index -1. -/
theorem dispatch_invalid_line_witness :
    ((-1 : Int) < 0 ∨ (16 : Int) ≤ -1)
      ∧ (dispatch_interrupt (predefined_exec []) ⟨[], 0, ⟨0, 0⟩, ⟨0, 0⟩, []⟩ (-1)
          (init_idt [] boot)).idt = (init_idt [] boot).idt :=
  ⟨by decide,
    (dispatch_invalid_line (predefined_exec []) ⟨[], 0, ⟨0, 0⟩, ⟨0, 0⟩, []⟩ (-1)
      (init_idt [] boot) (by decide)).2.2.2.2.1⟩

/-- C8, as the claim states it, fails: `register_isr` stores a null handler as it
stores any other, so after `register_isr(0, NULL, "")` on the fresh table line 0 is
Registered with no handler installed. -/
theorem null_handler_registered :
    Reachable (fun _ => True) (register_isr [] 0 none [] (init_idt [] boot)).2
      ∧ ((register_isr [] 0 none [] (init_idt [] boot)).2.idt 0).state = IRQ_STATE_REGISTERED
      ∧ ((register_isr [] 0 none [] (init_idt [] boot)).2.idt 0).isr = none
      ∧ ¬ handler_iff_not_free ((register_isr [] 0 none [] (init_idt [] boot)).2.idt 0) := by
  refine ⟨Reachable.register _ _ _ _ _ trivial (Reachable.init _ _), by decide, by decide, ?_⟩
  intro h
  have h2 := h.mpr (by decide)
  exact h2 (by decide)

/-- C8, amended. In every state reachable from `init_idt` by calls of `register_isr`,
`unregister_isr` and `dispatch_interrupt`, with any handler arguments, a descriptor
with a handler installed is not Free; and when no call of `register_isr` passes a
null handler, a descriptor has a handler installed if and only if its state is not
Free. The same holds of every table reached by the locked sections in any order,
which covers the states inside a dispatch. -/
theorem handler_installed_iff_not_free (ok : Option isr_ptr → Prop) (t : idt_t)
    (hr : (∃ s, Reachable ok s ∧ s.idt = t) ∨ table_reachable ok t)
    (j : Fin MAX_INTERRUPTS) :
    ((t j).isr ≠ none → (t j).state ≠ IRQ_STATE_FREE)
      ∧ ((∀ h, ok h → h ≠ none) → handler_iff_not_free (t j)) := by
  have ht : table_reachable ok t := by
    rcases hr with ⟨s, hs, rfl⟩ | hr
    · exact Reachable.table ok s hs
    · exact hr
  refine ⟨table_reachable.handler_not_free ok t ht j, fun hok => ?_⟩
  exact ⟨table_reachable.handler_not_free ok t ht j,
    table_reachable.not_free_handler ok hok t ht j⟩

/-- C8 amended, at a concrete input: the timer registration `main` makes. -/
theorem handler_installed_iff_not_free_witness :
    Reachable (fun h => h ≠ none)
        (register_isr [] 0 (some timer_isr_ptr) (cstr "Timer del Sistema") (init_idt [] boot)).2
      ∧ handler_iff_not_free
          ((register_isr [] 0 (some timer_isr_ptr) (cstr "Timer del Sistema")
            (init_idt [] boot)).2.idt 0) :=
  ⟨Reachable.register _ _ _ _ _ (by simp) (Reachable.init _ _),
    (handler_installed_iff_not_free (fun h => h ≠ none) _
      (Or.inl ⟨_, Reachable.register [] 0 (some timer_isr_ptr) (cstr "Timer del Sistema")
        (init_idt [] boot) (by simp) (Reachable.init _ _), rfl⟩) 0).2 (fun _ hh => hh)⟩

/-- C9. No section run under `idt_mutex` (of `register_isr`, of `unregister_isr`, the
first or the second of `dispatch_interrupt`) takes a descriptor from Free to
Executing or from Executing to Free: for every descriptor the state is left as it
was, or the step is one of Free to Registered, Registered to Registered,
Registered to Free, Registered to Executing, Executing to Registered. -/
theorem no_direct_free_executing (t t1 : idt_t) (hstep : locked_section t t1)
    (j : Fin MAX_INTERRUPTS) :
    ¬ ((t j).state = IRQ_STATE_FREE ∧ (t1 j).state = IRQ_STATE_EXECUTING)
      ∧ ¬ ((t j).state = IRQ_STATE_EXECUTING ∧ (t1 j).state = IRQ_STATE_FREE)
      ∧ ((t1 j).state = (t j).state ∨ listed_transition (t j).state (t1 j).state = true) := by
  cases hstep with
  | register i h d _ _ hl =>
    obtain ⟨hne, rfl⟩ := register_locked_some i h d t t1 hl
    by_cases hj : j = i
    · subst hj
      cases hst : (t j).state <;> simp_all [listed_transition]
    · simp only [Function.update_noteq hj]
      refine ⟨?_, ?_, Or.inl trivial⟩ <;> (rintro ⟨h1, h2⟩; rw [h1] at h2; cases h2)
  | unregister i n _ _ hl =>
    obtain ⟨hne, rfl⟩ := unregister_locked_some i n t t1 hl
    by_cases hj : j = i
    · subst hj
      cases hst : (t j).state <;> simp_all [listed_transition]
    · simp only [Function.update_noteq hj]
      refine ⟨?_, ?_, Or.inl trivial⟩ <;> (rintro ⟨h1, h2⟩; rw [h1] at h2; cases h2)
  | dispatch_begin now i f _ _ hl =>
    obtain ⟨hreg, _, rfl⟩ := dispatch_begin_some now i f t t1 hl
    by_cases hj : j = i
    · subst hj
      simp [hreg, listed_transition]
    · simp only [Function.update_noteq hj]
      refine ⟨?_, ?_, Or.inl trivial⟩ <;> (rintro ⟨h1, h2⟩; rw [h1] at h2; cases h2)
  | dispatch_end i x _ =>
    unfold dispatch_end
    by_cases hj : j = i
    · subst hj
      cases hst : (t j).state <;> simp [listed_transition]
    · simp only [Function.update_noteq hj]
      refine ⟨?_, ?_, Or.inl trivial⟩ <;> (rintro ⟨h1, h2⟩; rw [h1] at h2; cases h2)

/-- C9, at a concrete step: the second locked section of a dispatch of line 3,
run in the middle of that dispatch, takes line 3 from Executing to Registered. -/
theorem no_direct_free_executing_witness :
    locked_section mid_dispatch.idt (dispatch_end 3 8000 mid_dispatch.idt)
      ∧ (mid_dispatch.idt 3).state = IRQ_STATE_EXECUTING
      ∧ ((dispatch_end 3 8000 mid_dispatch.idt) 3).state = IRQ_STATE_REGISTERED
      ∧ ¬ ((mid_dispatch.idt 3).state = IRQ_STATE_EXECUTING
            ∧ ((dispatch_end 3 8000 mid_dispatch.idt) 3).state = IRQ_STATE_FREE) :=
  ⟨locked_section.dispatch_end 3 8000 mid_dispatch.idt, by decide, by decide,
    (no_direct_free_executing mid_dispatch.idt (dispatch_end 3 8000 mid_dispatch.idt)
      (locked_section.dispatch_end 3 8000 mid_dispatch.idt) 3).2.1⟩

/-- C10. After any sequence of `W > 100` trace writes, made through any of the four
writers from an index within the ring, the ring read in ring order starting at
`trace_index` is exactly the list of the last 100 writes (timestamp, message cut to
255 bytes, line tag), in insertion order; so every slot of the array holds one of
the last 100 writes and the `W - 100` older ones are gone. -/
theorem ring_holds_last_100 (ws : List trace_call) (s : Sys)
    (h0 : 0 ≤ s.trace_index) (h1 : s.trace_index < 100) (hW : 100 < ws.length) :
    ring_read (trace_writes ws s) = (ws.map trace_call.entry).drop (ws.length - 100)
      ∧ (∀ slot : Int, 0 ≤ slot → slot < 100 →
          (trace_writes ws s).trace_log slot
            ∈ (ws.map trace_call.entry).drop (ws.length - 100)) := by
  obtain ⟨hidx, hslots⟩ := trace_writes_ring ws s h0 h1
  have hread : ring_read (trace_writes ws s)
      = (ws.map trace_call.entry).drop (ws.length - 100) := by
    apply List.ext_getElem?
    intro j
    by_cases hj : j < 100
    · rw [ring_read, List.getElem?_map, List.getElem?_range hj, Option.map_some',
        List.getElem?_drop]
      have hk := hslots (99 - j) (by omega) (by omega)
      have hslot : Int.tmod ((trace_writes ws s).trace_index + (j : Int)) MAX_TRACE_LINES
          = (s.trace_index + (ws.length : Int) - 1 - ((99 - j : Nat) : Int)) % 100 := by
        rw [hidx, MAX_TRACE_LINES, Int.tmod_eq_emod (by omega) (by omega)]
        omega
      have hpos : ws.length - 100 + j = ws.length - 1 - (99 - j) := by omega
      rw [hslot, hk, hpos]
    · rw [List.getElem?_eq_none (by simp [ring_read]; omega),
        List.getElem?_eq_none (by simp; omega)]
  refine ⟨hread, ?_⟩
  intro slot hs0 hs1
  rw [← hread, ring_read, List.mem_map]
  refine ⟨((slot - (trace_writes ws s).trace_index) % 100).toNat, ?_, ?_⟩
  · rw [List.mem_range]; omega
  · congr 1
    rw [hidx, MAX_TRACE_LINES, Int.tmod_eq_emod (by omega) (by omega)]
    omega

/-- C10, at a concrete input: 101 writes after start-up, alternating between
`add_trace` and `add_trace_with_irq_silent`. -/
theorem ring_holds_last_100_witness :
    0 ≤ boot.trace_index ∧ boot.trace_index < 100 ∧ 100 < writes_101.length
      ∧ ring_read (trace_writes writes_101 boot)
          = (writes_101.map trace_call.entry).drop (writes_101.length - 100) :=
  ⟨by decide, by decide, by simp [writes_101],
    (ring_holds_last_100 writes_101 boot (by decide) (by decide) (by simp [writes_101])).1⟩

/-- C11, at the failing input: after exactly 100 writes the ring is full and
`trace_index` is back at 0; `show_recent_trace` then takes `trace_index` for the
number of stored entries, selects nothing and prints only its heading, where the
last 10 of the 100 stored entries are asked for. -/
theorem recent_trace_empty_after_wrap :
    writes_100.length = 100
      ∧ (trace_writes writes_100 boot).trace_index = 0
      ∧ recent_entries (trace_writes writes_100 boot) = []
      ∧ (show_recent_trace (trace_writes writes_100 boot)).stdout
          = (trace_writes writes_100 boot).stdout
            ++ [cstr "\n=== TRAZA RECIENTE (últimas 10 entradas) ===\n", cstr "\n"]
      ∧ (recent_expected 10 writes_100).length = 10
      ∧ recent_entries (trace_writes writes_100 boot) ≠ recent_expected 10 writes_100 := by
  have hlen : writes_100.length = 100 := by simp [writes_100]
  have hidx : (trace_writes writes_100 boot).trace_index = 0 := by
    have h := (trace_writes_ring writes_100 boot (by decide) (by decide)).1
    rw [h, hlen]; decide
  have hsel : recent_entries (trace_writes writes_100 boot) = [] := by
    rw [recent_entries_after_writes writes_100 boot rfl, hlen]
    apply List.drop_eq_nil_of_le
    simp [hlen]
  have hslots : recent_slots (trace_writes writes_100 boot) = [] := by
    simp [recent_slots, hidx]
  have hexp : (recent_expected 10 writes_100).length = 10 := by
    simp [recent_expected, hlen]
  refine ⟨hlen, hidx, hsel, ?_, hexp, ?_⟩
  · simp [show_recent_trace, hslots, printf]
  · intro h
    rw [hsel] at h
    rw [← h] at hexp
    simp at hexp

/-- C12. From freshly initialised statistics, after `n ≥ 1` calls of `update_stats`
(fewer than `2 ^ 64`, so that the counter has not wrapped) the mean response time,
in exact arithmetic, is the sum of the samples divided by `n`; every call computes
`(mean * (n - 1) + sample) / n` with `n` the total it has just incremented; and
after `K` equal samples `t` the mean is `t`. -/
theorem mean_is_average (now : Int) (s : Sys) (calls : List (Int × Nat))
    (h1 : 1 ≤ calls.length) (hn : calls.length < ULONG_MOD) :
    (update_stats_seq calls (init_system_stats now s)).stats.average_response_time
        = (((samples calls).sum : Nat) : ℚ) / (calls.length : ℚ)
      ∧ (∀ (irq_num : Int) (x : Nat) (s1 : Sys),
          s1.stats.total_interrupts + 1 < ULONG_MOD →
          (update_stats irq_num x s1).stats.total_interrupts = s1.stats.total_interrupts + 1
          ∧ (update_stats irq_num x s1).stats.average_response_time
              = (s1.stats.average_response_time
                    * ((((update_stats irq_num x s1).stats.total_interrupts - 1 : Nat)) : ℚ)
                  + (x : ℚ))
                / (((update_stats irq_num x s1).stats.total_interrupts : Nat) : ℚ))
      ∧ (∀ t : Nat, (∀ x ∈ samples calls, x = t) →
          (update_stats_seq calls (init_system_stats now s)).stats.average_response_time
            = (t : ℚ)) := by
  obtain ⟨_, _, hm⟩ := update_stats_seq_inv now s calls hn
  have hpos : (calls.length : ℚ) ≠ 0 := by
    have : 0 < calls.length := h1
    positivity
  have hmean : (update_stats_seq calls (init_system_stats now s)).stats.average_response_time
      = (((samples calls).sum : Nat) : ℚ) / (calls.length : ℚ) := by
    rw [← hm, mul_div_cancel_right₀ _ hpos]
  refine ⟨hmean, ?_, ?_⟩
  · intro irq_num x s1 hs1
    obtain ⟨f1, _, _, _, f5⟩ := update_stats_fields irq_num x s1
    have hmod : (s1.stats.total_interrupts + 1) % ULONG_MOD = s1.stats.total_interrupts + 1 :=
      Nat.mod_eq_of_lt hs1
    refine ⟨by rw [f1, hmod], ?_⟩
    rw [f5, f1, hmod, if_pos (by omega)]
  · intro t ht
    rw [hmean, sum_replicate_like _ t ht]
    have hl : (samples calls).length = calls.length := by simp [samples]
    rw [hl, Nat.cast_mul, mul_div_cancel_left₀ _ hpos]

/-- C12, at a concrete input: three dispatches of 8000 microseconds each, of the
lines 2, 3 and 2, give the mean 8000. -/
theorem mean_is_average_witness :
    1 ≤ [((2 : Int), 8000), (3, 8000), (2, 8000)].length
      ∧ [((2 : Int), 8000), (3, 8000), (2, 8000)].length < ULONG_MOD
      ∧ (update_stats_seq [((2 : Int), 8000), (3, 8000), (2, 8000)]
          (init_system_stats 0 boot)).stats.average_response_time = ((8000 : Nat) : ℚ) :=
  ⟨by decide, by decide,
    (mean_is_average 0 boot [((2 : Int), 8000), (3, 8000), (2, 8000)] (by decide) (by decide)).2.2
      8000 (by simp [samples])⟩

/-- C13. For every line index `update_stats` adds 1 to `total_interrupts` and to
exactly one bucket (the timer bucket for line 0, the keyboard bucket for line 1,
the custom bucket for every other index), in `unsigned long` arithmetic, and leaves
the other two buckets as they were; hence in every state reached from
`init_system_stats` by calls of `update_stats` the total equals the sum of the three
buckets, as an `unsigned long` expression and, below `2 ^ 64` calls, as numbers. -/
theorem stats_buckets (irq_num : Int) (x : Nat) (s : Sys) :
    (update_stats irq_num x s).stats.total_interrupts
        = (s.stats.total_interrupts + 1) % ULONG_MOD
      ∧ (s.stats.total_interrupts + 1 < ULONG_MOD →
          (update_stats irq_num x s).stats.total_interrupts = s.stats.total_interrupts + 1)
      ∧ (irq_num = 0 →
          (update_stats irq_num x s).stats.timer_interrupts
              = (s.stats.timer_interrupts + 1) % ULONG_MOD
          ∧ (update_stats irq_num x s).stats.keyboard_interrupts = s.stats.keyboard_interrupts
          ∧ (update_stats irq_num x s).stats.custom_interrupts = s.stats.custom_interrupts)
      ∧ (irq_num = 1 →
          (update_stats irq_num x s).stats.keyboard_interrupts
              = (s.stats.keyboard_interrupts + 1) % ULONG_MOD
          ∧ (update_stats irq_num x s).stats.timer_interrupts = s.stats.timer_interrupts
          ∧ (update_stats irq_num x s).stats.custom_interrupts = s.stats.custom_interrupts)
      ∧ (irq_num ≠ 0 → irq_num ≠ 1 →
          (update_stats irq_num x s).stats.custom_interrupts
              = (s.stats.custom_interrupts + 1) % ULONG_MOD
          ∧ (update_stats irq_num x s).stats.timer_interrupts = s.stats.timer_interrupts
          ∧ (update_stats irq_num x s).stats.keyboard_interrupts = s.stats.keyboard_interrupts)
      ∧ (∀ (now : Int) (s0 : Sys) (calls : List (Int × Nat)),
          (update_stats_seq calls (init_system_stats now s0)).stats.total_interrupts
              = bucket_sum (update_stats_seq calls (init_system_stats now s0)).stats
          ∧ (calls.length < ULONG_MOD →
              (update_stats_seq calls (init_system_stats now s0)).stats.total_interrupts
                = (update_stats_seq calls (init_system_stats now s0)).stats.timer_interrupts
                  + (update_stats_seq calls (init_system_stats now s0)).stats.keyboard_interrupts
                  + (update_stats_seq calls (init_system_stats now s0)).stats.custom_interrupts)) := by
  obtain ⟨f1, f2, f3, f4, _⟩ := update_stats_fields irq_num x s
  refine ⟨f1, fun h => by rw [f1, Nat.mod_eq_of_lt h], ?_, ?_, ?_, ?_⟩
  · intro h0
    rw [f2, f3, f4]
    simp [h0]
  · intro h1
    rw [f2, f3, f4]
    simp [h1]
  · intro h0 h1
    rw [f2, f3, f4]
    simp [h0, h1]
  · intro now s0 calls
    refine ⟨(update_stats_seq_buckets now s0 calls).2, fun hlt => ?_⟩
    obtain ⟨ht, hb, _⟩ := update_stats_seq_inv now s0 calls hlt
    rw [ht, hb]

/-- C13, at a concrete input: one timer interrupt counted on fresh statistics. -/
theorem stats_buckets_witness :
    (0 : Int) = 0
      ∧ (update_stats 0 10000 (init_system_stats 0 boot)).stats.timer_interrupts
          = ((init_system_stats 0 boot).stats.timer_interrupts + 1) % ULONG_MOD
      ∧ (update_stats 0 10000 (init_system_stats 0 boot)).stats.keyboard_interrupts
          = (init_system_stats 0 boot).stats.keyboard_interrupts
      ∧ (update_stats 0 10000 (init_system_stats 0 boot)).stats.custom_interrupts
          = (init_system_stats 0 boot).stats.custom_interrupts :=
  ⟨rfl, (stats_buckets 0 10000 (init_system_stats 0 boot)).2.2.1 rfl⟩

/-- C14. Every error path writes exactly one trace entry before it returns. In any
state: `register_isr`, `unregister_isr` and `dispatch_interrupt` with an index outside
`[0, 16)`; `register_isr` and `unregister_isr` on a line that is Executing; and
`dispatch_interrupt` on a line that is not dispatchable (Free, Executing or without
handler). In each case the slot at `trace_index` receives the error message and
`trace_index` advances by one. -/
theorem error_paths_traced (ts : CStr) (clk : dispatch_clock)
    (exec : isr_ptr → Int → Sys → Sys) (h : Option isr_ptr) (d : CStr) (s : Sys) :
    (∀ irq_num : Int, irq_num < 0 ∨ 16 ≤ irq_num →
        logged_once
            ⟨ts, strncpy (cstr "Error: Número de IRQ fuera de rango") (MAX_TRACE_MSG_LEN - 1),
              -1⟩
            s (register_isr ts irq_num h d s).2
          ∧ logged_once
            ⟨ts, strncpy (cstr "Error: Número de IRQ fuera de rango") (MAX_TRACE_MSG_LEN - 1),
              -1⟩
            s (unregister_isr ts irq_num s).2
          ∧ logged_once
            ⟨clk.ts_first,
              strncpy (snprintf MAX_TRACE_MSG_LEN
                (cstr "Error: IRQ " ++ fmt_d irq_num ++ cstr " fuera de rango"))
                (MAX_TRACE_MSG_LEN - 1), -1⟩
            s (dispatch_interrupt exec clk irq_num s))
      ∧ (∀ i : Fin MAX_INTERRUPTS, (s.idt i).state = IRQ_STATE_EXECUTING →
          logged_once
              ⟨ts, strncpy (cstr "Advertencia: No se puede registrar ISR mientras se ejecuta")
                (MAX_TRACE_MSG_LEN - 1), -1⟩
              s (register_isr ts (i.val : Int) h d s).2
            ∧ logged_once
              ⟨ts, strncpy (cstr "Error: No se puede desregistrar ISR mientras se ejecuta")
                (MAX_TRACE_MSG_LEN - 1), -1⟩
              s (unregister_isr ts (i.val : Int) s).2)
      ∧ (∀ j : Fin MAX_INTERRUPTS,
          ((s.idt j).state = IRQ_STATE_FREE ∨ (s.idt j).state = IRQ_STATE_EXECUTING
            ∨ (s.idt j).isr = none) →
          logged_once
            ⟨clk.ts_first,
              strncpy (snprintf MAX_TRACE_MSG_LEN
                (cstr "Error: No hay ISR registrada para IRQ " ++ fmt_d (j.val : Int)))
                (MAX_TRACE_MSG_LEN - 1), (j.val : Int)⟩
            s (dispatch_interrupt exec clk (j.val : Int) s)) := by
  refine ⟨?_, ?_, ?_⟩
  · intro irq_num hout
    rw [register_isr_invalid ts irq_num h d s hout, unregister_isr_invalid ts irq_num s hout,
      dispatch_invalid exec clk irq_num s hout]
    refine ⟨add_trace_logged _ _ _, add_trace_logged _ _ _, ?_⟩
    have h1 := add_trace_smart_logged clk.ts_first
      (snprintf MAX_TRACE_MSG_LEN (cstr "Error: IRQ " ++ fmt_d irq_num ++ cstr " fuera de rango"))
      (-1) 0 s
    simpa using h1
  · intro i hex
    rw [register_isr_busy ts i h d s hex, unregister_isr_busy ts i s hex]
    exact ⟨add_trace_logged _ _ _, add_trace_logged _ _ _⟩
  · intro j hnd
    have hj : (s.idt j).state ≠ IRQ_STATE_REGISTERED ∨ (s.idt j).isr = none := by
      rcases hnd with h1 | h1 | h1
      · left; rw [h1]; decide
      · left; rw [h1]; decide
      · right; exact h1
    rw [dispatch_rejected exec clk j s hj]
    have h2 := add_trace_smart_logged clk.ts_first
      (snprintf MAX_TRACE_MSG_LEN
        (cstr "Error: No hay ISR registrada para IRQ " ++ fmt_d (j.val : Int)))
      (j.val : Int) (if (j.val : Int) = IRQ_TIMER then 1 else 0) s
    have hpos : (j.val : Int) ≥ 0 := by omega
    simpa [hpos] using h2

/-- C14, at concrete inputs: in the started system, where no line is executing, the
index 16 given to `register_isr` and a dispatch of the free line 5; and in the
middle of the dispatch of line 3, an `unregister_isr` of that line. -/
theorem error_paths_traced_witness :
    (((16 : Int) < 0 ∨ (16 : Int) ≤ 16)
        ∧ logged_once
          ⟨[], strncpy (cstr "Error: Número de IRQ fuera de rango") (MAX_TRACE_MSG_LEN - 1), -1⟩
          started (register_isr [] 16 (some custom_isr_ptr) [] started).2)
      ∧ (((started.idt 5).state = IRQ_STATE_FREE ∨ (started.idt 5).state = IRQ_STATE_EXECUTING
            ∨ (started.idt 5).isr = none)
        ∧ logged_once
          ⟨[], strncpy (snprintf MAX_TRACE_MSG_LEN
              (cstr "Error: No hay ISR registrada para IRQ "
                ++ fmt_d ((5 : Fin MAX_INTERRUPTS).val : Int)))
              (MAX_TRACE_MSG_LEN - 1), ((5 : Fin MAX_INTERRUPTS).val : Int)⟩
          started
          (dispatch_interrupt (predefined_exec []) ⟨[], 0, ⟨0, 0⟩, ⟨0, 0⟩, []⟩
            ((5 : Fin MAX_INTERRUPTS).val : Int) started))
      ∧ ((mid_dispatch.idt 3).state = IRQ_STATE_EXECUTING
        ∧ logged_once
          ⟨[], strncpy (cstr "Error: No se puede desregistrar ISR mientras se ejecuta")
            (MAX_TRACE_MSG_LEN - 1), -1⟩
          mid_dispatch (unregister_isr [] ((3 : Fin MAX_INTERRUPTS).val : Int) mid_dispatch).2) :=
  ⟨⟨by decide,
      ((error_paths_traced [] ⟨[], 0, ⟨0, 0⟩, ⟨0, 0⟩, []⟩ (predefined_exec [])
        (some custom_isr_ptr) [] started).1 16 (by decide)).1⟩,
    ⟨Or.inl (by decide),
      (error_paths_traced [] ⟨[], 0, ⟨0, 0⟩, ⟨0, 0⟩, []⟩ (predefined_exec [])
        (some custom_isr_ptr) [] started).2.2 5 (Or.inl (by decide))⟩,
    ⟨by decide,
      ((error_paths_traced [] ⟨[], 0, ⟨0, 0⟩, ⟨0, 0⟩, []⟩ (predefined_exec [])
        (some custom_isr_ptr) [] mid_dispatch).2.1 3 (by decide)).2⟩⟩

/-- C15. The persisted trace log does not depend on the visibility configuration:
for every message, line tag and timer flag, `add_trace_smart` leaves the same
`trace_log` and the same `trace_index` under any two settings of the log level and
of the timer-log toggle; and `set_log_level` and `toggle_timer_logs` themselves leave
the log as it is. -/
theorem persisted_log_ignores_visibility (ts e : CStr) (n t : Int) (s : Sys)
    (l1 l2 : log_level_t) (g1 g2 : Int) :
    (add_trace_smart ts e n t { s with current_log_level := l1, show_timer_logs := g1 }).trace_log
        = (add_trace_smart ts e n t
            { s with current_log_level := l2, show_timer_logs := g2 }).trace_log
      ∧ (add_trace_smart ts e n t
            { s with current_log_level := l1, show_timer_logs := g1 }).trace_index
        = (add_trace_smart ts e n t
            { s with current_log_level := l2, show_timer_logs := g2 }).trace_index
      ∧ (add_trace_smart ts e n t (set_log_level l1 s)).trace_log
        = (add_trace_smart ts e n t (set_log_level l2 s)).trace_log
      ∧ (add_trace_smart ts e n t (set_log_level l1 s)).trace_index
        = (add_trace_smart ts e n t (set_log_level l2 s)).trace_index
      ∧ (add_trace_smart ts e n t (toggle_timer_logs s)).trace_log
        = (add_trace_smart ts e n t s).trace_log
      ∧ (add_trace_smart ts e n t (toggle_timer_logs s)).trace_index
        = (add_trace_smart ts e n t s).trace_index
      ∧ (set_log_level l1 s).trace_log = s.trace_log
      ∧ (set_log_level l1 s).trace_index = s.trace_index
      ∧ (toggle_timer_logs s).trace_log = s.trace_log
      ∧ (toggle_timer_logs s).trace_index = s.trace_index := by
  refine ⟨?_, ?_, ?_, ?_, ?_, ?_, rfl, rfl, rfl, rfl⟩
    <;> simp [add_trace_smart_log, add_trace_smart_index, set_log_level, toggle_timer_logs,
      printf]

/-- C16. For a valid line index `is_irq_available` returns true (1) if the state of
the descriptor is Free and false (0) otherwise, and for an index outside `[0, 16)`
it returns false. The function only reads the table: its embedding has no state
to return. -/
theorem is_irq_available_iff_free (s : Sys) :
    (∀ i : Fin MAX_INTERRUPTS,
        (is_irq_available (i.val : Int) s ≠ 0 ↔ (s.idt i).state = IRQ_STATE_FREE)
        ∧ ((s.idt i).state = IRQ_STATE_FREE → is_irq_available (i.val : Int) s = 1)
        ∧ ((s.idt i).state ≠ IRQ_STATE_FREE → is_irq_available (i.val : Int) s = 0))
      ∧ (∀ irq_num : Int, irq_num < 0 ∨ 16 ≤ irq_num → is_irq_available irq_num s = 0) := by
  constructor
  · intro i
    unfold is_irq_available
    simp only [valid_of_fin, idt_slot_of_fin, Bool.not_true, Bool.false_eq_true, if_false]
    by_cases hf : (s.idt i).state = IRQ_STATE_FREE <;> simp [hf]
  · intro irq_num hout
    have hv := (invalid_iff irq_num).mpr hout
    have hb : IS_VALID_IRQ irq_num = false := by
      unfold validate_irq_num at hv
      by_cases hb : IS_VALID_IRQ irq_num = true
      · simp [hb] at hv
      · simpa using hb
    unfold is_irq_available
    simp [hb]

/-- C16, at concrete inputs: in the middle of the dispatch of line 3, line 5 is
available, line 3 is not, and the index 16 is not. -/
theorem is_irq_available_iff_free_witness :
    (mid_dispatch.idt 5).state = IRQ_STATE_FREE
      ∧ is_irq_available ((5 : Fin MAX_INTERRUPTS).val : Int) mid_dispatch = 1
      ∧ (mid_dispatch.idt 3).state ≠ IRQ_STATE_FREE
      ∧ is_irq_available ((3 : Fin MAX_INTERRUPTS).val : Int) mid_dispatch = 0
      ∧ ((16 : Int) < 0 ∨ (16 : Int) ≤ 16)
      ∧ is_irq_available 16 mid_dispatch = 0 :=
  ⟨by decide, ((is_irq_available_iff_free mid_dispatch).1 5).2.1 (by decide),
    by decide, ((is_irq_available_iff_free mid_dispatch).1 3).2.2 (by decide),
    by decide, (is_irq_available_iff_free mid_dispatch).2 16 (by decide)⟩

/-- C19. `add_trace_smart` prints the entry exactly when the visibility predicate
holds: never when the level is Silent, always when it is Verbose, and when it is
UserOnly exactly when the entry is not timer-related or the timer-log toggle is on.
When it prints, it prints one line. -/
theorem smart_emits_iff_visible (ts e : CStr) (n t : Int) (s : Sys) :
    ((add_trace_smart ts e n t s).stdout ≠ s.stdout
        ↔ visible s.current_log_level (decide (s.show_timer_logs ≠ 0)) (decide (t ≠ 0)) = true)
      ∧ (visible s.current_log_level (decide (s.show_timer_logs ≠ 0)) (decide (t ≠ 0)) = true →
          (add_trace_smart ts e n t s).stdout
            = s.stdout ++ [smart_line (stored_stamp ts e (if n ≥ 0 then n else -1) s) e n])
      ∧ (s.current_log_level = LOG_LEVEL_SILENT → (add_trace_smart ts e n t s).stdout = s.stdout)
      ∧ (s.current_log_level = LOG_LEVEL_VERBOSE →
          (add_trace_smart ts e n t s).stdout ≠ s.stdout)
      ∧ (s.current_log_level = LOG_LEVEL_USER_ONLY →
          ((add_trace_smart ts e n t s).stdout ≠ s.stdout ↔ (t = 0 ∨ s.show_timer_logs ≠ 0))) := by
  have hout := add_trace_smart_stdout ts e n t s
  have hgrow : ∀ x : CStr, s.stdout ++ [x] ≠ s.stdout := by
    intro x hx
    have := congrArg List.length hx
    simp at this
  refine ⟨?_, ?_, ?_, ?_, ?_⟩
  · rw [hout]
    by_cases hv : visible s.current_log_level (decide (s.show_timer_logs ≠ 0)) (decide (t ≠ 0))
        = true
    · simp [hv, hgrow]
    · simp [hv]
  · intro hv
    rw [hout, if_pos hv]
  · intro hl
    rw [hout]
    simp [visible, hl]
  · intro hl
    rw [hout]
    simp [visible, hl, hgrow]
  · intro hl
    rw [hout]
    by_cases ht : t = 0 <;> by_cases hg : s.show_timer_logs = 0 <;> simp [visible, hl, ht, hg, hgrow]

/-- C19, at a concrete input: in the started system (level UserOnly, timer logs off)
the timer handler's entry is not printed. -/
theorem smart_emits_iff_visible_witness :
    started.current_log_level = LOG_LEVEL_USER_ONLY
      ∧ ¬ ((1 : Int) = 0 ∨ started.show_timer_logs ≠ 0)
      ∧ ¬ ((add_trace_smart [] (cstr "    TIMER ISR: Tick del sistema #1") 0 1 started).stdout
            ≠ started.stdout) :=
  ⟨by decide, by decide,
    fun hne => absurd
      (((smart_emits_iff_visible [] (cstr "    TIMER ISR: Tick del sistema #1") 0 1
        started).2.2.2.2 (by decide)).mp hne) (by decide)⟩

/-- C20, at failing inputs: with the level set to Silent, `register_isr` and
`unregister_isr` still print their entry (they write through `add_trace_with_irq` and
`add_trace`, which print whatever the level), and so does a dispatch of the keyboard
line, whose handler writes through `add_trace_with_irq`; a dispatch of the timer
line, whose handler writes through `add_trace_smart`, prints nothing. -/
theorem silent_level_still_prints :
    silent_started.current_log_level = LOG_LEVEL_SILENT
      ∧ (register_isr [] 2 (some custom_isr_ptr) (cstr "Test ISR 1") silent_started).2.stdout.length
          = silent_started.stdout.length + 1
      ∧ (unregister_isr [] 1 silent_started).2.stdout.length = silent_started.stdout.length + 1
      ∧ (register_isr [] 16 (some custom_isr_ptr) [] silent_started).2.stdout.length
          = silent_started.stdout.length + 1
      ∧ (dispatch_interrupt (predefined_exec []) ⟨[], 0, ⟨0, 0⟩, ⟨0, 5000000⟩, []⟩ 1
            silent_started).stdout.length = silent_started.stdout.length + 1
      ∧ (dispatch_interrupt (predefined_exec []) ⟨[], 0, ⟨0, 0⟩, ⟨0, 10000000⟩, []⟩ 0
            silent_started).stdout = silent_started.stdout := by
  refine ⟨by decide, by decide, by decide, by decide, by decide, ?_⟩
  decide

/-- C17, as the claim states it, fails: the second call is rejected only while the
first is between its two locked sections. In the interleaving where thread A runs
both its locked sections before thread B runs its first, both threads call the
keyboard handler of the started system and the call count goes from 0 to 2. -/
theorem both_dispatches_invoke :
    (started.idt 1).state = IRQ_STATE_REGISTERED
      ∧ (started.idt 1).isr = some keyboard_isr_ptr
      ∧ (started.idt 1).call_count = 0
      ∧ (interleave 1 ⟨0, 5000⟩ ⟨0, 5000⟩ [true, true, false, false]
          ⟨started.idt, .ready, .ready⟩).pc_a = .invoked
      ∧ (interleave 1 ⟨0, 5000⟩ ⟨0, 5000⟩ [true, true, false, false]
          ⟨started.idt, .ready, .ready⟩).pc_b = .invoked
      ∧ ((interleave 1 ⟨0, 5000⟩ ⟨0, 5000⟩ [true, true, false, false]
          ⟨started.idt, .ready, .ready⟩).idt 1).call_count = 2 := by
  refine ⟨by decide, by decide, by decide, by decide, by decide, by decide⟩

/-- C17, amended. In every interleaving of two calls `dispatch_interrupt(i)` on a
Registered line with a handler: the two threads are never both between their
locked sections (at most one invocation is in progress); `call_count` has been
incremented once for each invocation (so, within the range of `int`, it has grown
by the number of invocations); a thread that reaches its first locked section
while the other is between its two is rejected and leaves the table as it is; and
once both calls have returned, at least one of them has called the handler, and if
one was rejected then exactly one called the handler and `call_count` has been
incremented exactly once. -/
theorem concurrent_dispatch_same_line (i : Fin MAX_INTERRUPTS) (f : isr_ptr) (t : idt_t)
    (ca cb : thread_clock) (schedule : List Bool)
    (hst : (t i).state = IRQ_STATE_REGISTERED) (hisr : (t i).isr = some f) :
    ¬ ((interleave i ca cb schedule ⟨t, .ready, .ready⟩).pc_a.is_running = true
        ∧ (interleave i ca cb schedule ⟨t, .ready, .ready⟩).pc_b.is_running = true)
      ∧ ((interleave i ca cb schedule ⟨t, .ready, .ready⟩).idt i).call_count
          = count_after (t i).call_count
              (invocations (interleave i ca cb schedule ⟨t, .ready, .ready⟩))
      ∧ (-2147483648 ≤ (t i).call_count → (t i).call_count + 2 ≤ 2147483647 →
          ((interleave i ca cb schedule ⟨t, .ready, .ready⟩).idt i).call_count
            = (t i).call_count
              + (invocations (interleave i ca cb schedule ⟨t, .ready, .ready⟩) : Int))
      ∧ ((interleave i ca cb schedule ⟨t, .ready, .ready⟩).pc_a.is_running = true →
          (interleave i ca cb schedule ⟨t, .ready, .ready⟩).pc_b = .ready →
          ((interleave i ca cb schedule ⟨t, .ready, .ready⟩).step i ca cb false).pc_b = .rejected
          ∧ ((interleave i ca cb schedule ⟨t, .ready, .ready⟩).step i ca cb false).idt
              = (interleave i ca cb schedule ⟨t, .ready, .ready⟩).idt)
      ∧ ((interleave i ca cb schedule ⟨t, .ready, .ready⟩).pc_b.is_running = true →
          (interleave i ca cb schedule ⟨t, .ready, .ready⟩).pc_a = .ready →
          ((interleave i ca cb schedule ⟨t, .ready, .ready⟩).step i ca cb true).pc_a = .rejected
          ∧ ((interleave i ca cb schedule ⟨t, .ready, .ready⟩).step i ca cb true).idt
              = (interleave i ca cb schedule ⟨t, .ready, .ready⟩).idt)
      ∧ ((interleave i ca cb schedule ⟨t, .ready, .ready⟩).pc_a.finished = true →
          (interleave i ca cb schedule ⟨t, .ready, .ready⟩).pc_b.finished = true →
          1 ≤ invocations (interleave i ca cb schedule ⟨t, .ready, .ready⟩)
          ∧ (((interleave i ca cb schedule ⟨t, .ready, .ready⟩).pc_a = .rejected
                ∨ (interleave i ca cb schedule ⟨t, .ready, .ready⟩).pc_b = .rejected) →
              invocations (interleave i ca cb schedule ⟨t, .ready, .ready⟩) = 1
              ∧ ((interleave i ca cb schedule ⟨t, .ready, .ready⟩).idt i).call_count
                  = int_wrap ((t i).call_count + 1)
              ∧ (-2147483648 ≤ (t i).call_count → (t i).call_count < 2147483647 →
                  ((interleave i ca cb schedule ⟨t, .ready, .ready⟩).idt i).call_count
                    = (t i).call_count + 1))) := by
  have hinv := interleave_inv i f (t i).call_count ca cb schedule ⟨t, .ready, .ready⟩
    (initial_inv i f t hst hisr)
  generalize interleave i ca cb schedule ⟨t, .ready, .ready⟩ = c at hinv
  rcases c with ⟨idt, pa, pb⟩
  obtain ⟨hi, hcnt, hstate, hx, hra, hrb⟩ := hinv
  have hle : invocations ⟨idt, pa, pb⟩ ≤ 2 := by
    unfold invocations; split_ifs <;> omega
  refine ⟨hx, hcnt, ?_, ?_, ?_, ?_⟩
  · intro h0 h1
    rw [hcnt]
    exact count_after_in_range _ _ h0 (by omega)
  · intro hrun hready
    simp only at hrun hready
    subst hready
    have hne : (idt i).state ≠ IRQ_STATE_REGISTERED := by
      rw [hstate]; simp [hrun]
    simp [two_threads.step, thread_step, dispatch_begin_none cb.now i idt (Or.inl hne)]
  · intro hrun hready
    simp only at hrun hready
    subst hready
    have hne : (idt i).state ≠ IRQ_STATE_REGISTERED := by
      rw [hstate]; simp [hrun]
    simp [two_threads.step, thread_step, dispatch_begin_none ca.now i idt (Or.inl hne)]
  · intro hfa hfb
    have hone : ∀ b : Int, -2147483648 ≤ b → b < 2147483647 → int_wrap (b + 1) = b + 1 :=
      fun b h0 h1 => int_wrap_of_range _ (by omega) (by omega)
    simp only at hfa hfb hra hrb hcnt ⊢
    cases pa <;> cases pb <;>
      simp_all [dispatch_pc.finished, dispatch_pc.calls_handler, invocations]

/-- C17 amended, at a concrete input: the keyboard line of the started system, with
thread B reaching its first locked section while thread A is in the handler: B is
rejected, A alone calls the handler and the call count goes from 0 to 1. -/
theorem concurrent_dispatch_same_line_witness :
    (started.idt 1).state = IRQ_STATE_REGISTERED
      ∧ (started.idt 1).isr = some keyboard_isr_ptr
      ∧ (interleave 1 ⟨0, 5000⟩ ⟨0, 5000⟩ [true, false, true] ⟨started.idt, .ready, .ready⟩).pc_a
          = .invoked
      ∧ (interleave 1 ⟨0, 5000⟩ ⟨0, 5000⟩ [true, false, true] ⟨started.idt, .ready, .ready⟩).pc_b
          = .rejected
      ∧ ((interleave 1 ⟨0, 5000⟩ ⟨0, 5000⟩ [true, false, true]
          ⟨started.idt, .ready, .ready⟩).idt 1).call_count = (started.idt 1).call_count + 1 :=
  ⟨by decide, by decide, by decide, by decide,
    (((concurrent_dispatch_same_line 1 keyboard_isr_ptr started.idt ⟨0, 5000⟩ ⟨0, 5000⟩
      [true, false, true] (by decide) (by decide)).2.2.2.2.2 (by decide) (by decide)).2
      (Or.inr (by decide))).2.2 (by decide) (by decide)⟩

/-- C18, as the claim states it, fails where the call count is `INT_MAX`: the count
is a C `int`. Line 2, registered and dispatched `2147483647` times, is Registered
with `call_count = 2147483647`; dispatched once more with a handler that copies the
call count it finds into `timer_counter`, the call ends with
`timer_counter = -2147483648`, which is not one more than `2147483647`. -/
theorem handler_sees_wrapped_count :
    (at_int_max.idt 2).state = IRQ_STATE_REGISTERED
      ∧ (at_int_max.idt 2).isr = some custom_isr_ptr
      ∧ (at_int_max.idt 2).call_count = 2147483647
      ∧ (dispatch_interrupt
          (fun _ _ t => { t with timer_counter := (t.idt 2).call_count })
          ⟨[], 0, ⟨0, 0⟩, ⟨0, 8000000⟩, []⟩ 2 at_int_max).timer_counter = -2147483648
      ∧ (dispatch_interrupt
          (fun _ _ t => { t with timer_counter := (t.idt 2).call_count })
          ⟨[], 0, ⟨0, 0⟩, ⟨0, 8000000⟩, []⟩ 2 at_int_max).timer_counter
          ≠ (at_int_max.idt 2).call_count + 1 := by
  have hlen : max_calls.length = 2147483647 := by
    unfold max_calls
    exact List.length_replicate _ _
  have hex : ∀ e ∈ max_calls, ∀ n t, (e.1 custom_isr_ptr n t).idt = t.idt := by
    intro e he n t
    have he2 := List.eq_of_mem_replicate he
    rw [he2]; exact predefined_exec_idt _ _ _ _
  have hidle : ((init_idt [] boot).idt 2).state ≠ IRQ_STATE_EXECUTING := by decide
  have h2 : ((2 : Fin MAX_INTERRUPTS).val : Int) = 2 := rfl
  have hall := register_then_dispatch_idt [] 2 custom_isr_ptr (cstr "Test ISR 1")
    (init_idt [] boot) max_calls hidle hex
  have hhandler := register_then_dispatch_isr [] 2 custom_isr_ptr (cstr "Test ISR 1")
    (init_idt [] boot) max_calls hidle hex
  rw [h2] at hall hhandler
  have hst : (at_int_max.idt 2).state = IRQ_STATE_REGISTERED := by
    rw [at_int_max, hall.1]
  have hisr : (at_int_max.idt 2).isr = some custom_isr_ptr := by
    rw [at_int_max, hhandler]
  have hcc : (at_int_max.idt 2).call_count = 2147483647 := by
    rw [at_int_max, hall.2.1, hlen]; unfold int_wrap; omega
  obtain ⟨s1, hmain, _, hidt⟩ :=
    dispatch_enters_handler ⟨[], 0, ⟨0, 0⟩, ⟨0, 8000000⟩, []⟩ 2 custom_isr_ptr at_int_max hst hisr
  rw [h2] at hmain
  have hseen : (dispatch_interrupt
      (fun _ _ t => { t with timer_counter := (t.idt 2).call_count })
      ⟨[], 0, ⟨0, 0⟩, ⟨0, 8000000⟩, []⟩ 2 at_int_max).timer_counter = -2147483648 := by
    rw [hmain]
    simp only [add_trace_smart_timer_counter, update_stats_timer_counter]
    rw [hidt, Function.update_same]
    dsimp only
    rw [hcc]
    unfold int_wrap; omega
  refine ⟨hst, hisr, hcc, hseen, ?_⟩
  rw [hseen, hcc]; omega

/-- C18, amended. On a valid Registered line with handler `f`, `dispatch_interrupt`
calls `f` in the state `s1` reached by its first locked section and the trace write
announcing the dispatch: whatever the handler code `exec`, the result of the call is
what the rest of the dispatcher (second locked section, statistics, closing trace
write) makes of `exec f i s1`. In `s1` the line is already Executing and its call
count has already been incremented: it is one more than before the call when that
was below `INT_MAX`, and `INT_MIN` when it was `INT_MAX`; the handler is still
installed and the other descriptors are as before the call. So in `s1` a
`register_isr` or an `unregister_isr` of the same line returns `ERROR_ISR_EXECUTING`,
and a `dispatch_interrupt` of the same line only traces its rejection, calling no
handler and leaving the table, the call count with it, as it is. -/
theorem handler_runs_on_executing_line (clk : dispatch_clock) (i : Fin MAX_INTERRUPTS)
    (f : isr_ptr) (s : Sys)
    (hst : (s.idt i).state = IRQ_STATE_REGISTERED) (hisr : (s.idt i).isr = some f) :
    ∃ s1 : Sys,
      (∀ exec : isr_ptr → Int → Sys → Sys,
          dispatch_interrupt exec clk (i.val : Int) s
            = add_trace_smart clk.ts_last
                (snprintf MAX_TRACE_MSG_LEN
                  (cstr "<<< FINALIZANDO IRQ " ++ fmt_d (i.val : Int)
                    ++ cstr " - Retorno al flujo principal (Tiempo: "
                    ++ fmt_lu (elapsed_us clk.start_time clk.end_time) ++ cstr " μs)"))
                (i.val : Int) (if (i.val : Int) = IRQ_TIMER then 1 else 0)
                (update_stats (i.val : Int) (elapsed_us clk.start_time clk.end_time)
                  { exec f (i.val : Int) s1 with
                    idt := dispatch_end i (elapsed_us clk.start_time clk.end_time)
                      (exec f (i.val : Int) s1).idt }))
        ∧ (∀ exec : isr_ptr → Int → Sys → Sys,
            (dispatch_interrupt exec clk (i.val : Int) s).timer_counter
              = (exec f (i.val : Int) s1).timer_counter)
        ∧ handler_entry clk (i.val : Int) s = some (f, s1)
        ∧ (s1.idt i).state = IRQ_STATE_EXECUTING
        ∧ (s1.idt i).call_count = int_wrap ((s.idt i).call_count + 1)
        ∧ (-2147483648 ≤ (s.idt i).call_count → (s.idt i).call_count < 2147483647 →
            (s1.idt i).call_count = (s.idt i).call_count + 1)
        ∧ ((s.idt i).call_count = 2147483647 → (s1.idt i).call_count = -2147483648)
        ∧ (s1.idt i).isr = some f
        ∧ (∀ j, j ≠ i → s1.idt j = s.idt j)
        ∧ (∀ (ts : CStr) (h : Option isr_ptr) (d : CStr),
            (register_isr ts (i.val : Int) h d s1).1 = ERROR_ISR_EXECUTING
            ∧ (register_isr ts (i.val : Int) h d s1).2.idt = s1.idt)
        ∧ (∀ ts : CStr,
            (unregister_isr ts (i.val : Int) s1).1 = ERROR_ISR_EXECUTING
            ∧ (unregister_isr ts (i.val : Int) s1).2.idt = s1.idt)
        ∧ (∀ (exec2 : isr_ptr → Int → Sys → Sys) (clk2 : dispatch_clock),
            dispatch_interrupt exec2 clk2 (i.val : Int) s1
              = add_trace_smart clk2.ts_first
                  (snprintf MAX_TRACE_MSG_LEN
                    (cstr "Error: No hay ISR registrada para IRQ " ++ fmt_d (i.val : Int)))
                  (i.val : Int) (if (i.val : Int) = IRQ_TIMER then 1 else 0) s1
            ∧ (dispatch_interrupt exec2 clk2 (i.val : Int) s1).idt = s1.idt) := by
  obtain ⟨s1, hmain, he, hidt⟩ := dispatch_enters_handler clk i f s hst hisr
  have hex : (s1.idt i).state = IRQ_STATE_EXECUTING := by rw [hidt]; simp
  have hcount : (s1.idt i).call_count = int_wrap ((s.idt i).call_count + 1) := by
    rw [hidt]; simp
  refine ⟨s1, hmain, ?_, he, hex, hcount, ?_, ?_, ?_, ?_, ?_, ?_, ?_⟩
  · intro exec
    rw [hmain exec]
    simp only [add_trace_smart_timer_counter, update_stats_timer_counter]
  · intro h0 h1
    rw [hcount]
    exact int_wrap_of_range _ (by omega) (by omega)
  · intro hmax
    rw [hcount, hmax]
    unfold int_wrap; omega
  · rw [hidt]; simp [hisr]
  · intro j hj
    rw [hidt, Function.update_noteq hj]
  · intro ts h d
    rw [register_isr_busy ts i h d s1 hex]
    exact ⟨rfl, rfl⟩
  · intro ts
    rw [unregister_isr_busy ts i s1 hex]
    exact ⟨rfl, rfl⟩
  · intro exec2 clk2
    have hrej := dispatch_rejected exec2 clk2 i s1 (Or.inl (by rw [hex]; decide))
    refine ⟨hrej, ?_⟩
    rw [hrej]; simp

/-- C18 amended, at a concrete input: the keyboard line of the started system,
dispatched with a handler that stores in `timer_counter` whether it found its line
Executing (1) or not (0): the call ends with `timer_counter = 1`. -/
theorem handler_runs_on_executing_line_witness :
    (started.idt 1).state = IRQ_STATE_REGISTERED
      ∧ (started.idt 1).isr = some keyboard_isr_ptr
      ∧ (dispatch_interrupt
          (fun _ _ t =>
            { t with timer_counter := if (t.idt 1).state = IRQ_STATE_EXECUTING then 1 else 0 })
          ⟨[], 0, ⟨0, 0⟩, ⟨0, 5000000⟩, []⟩ ((1 : Fin MAX_INTERRUPTS).val : Int)
          started).timer_counter = 1 :=
  ⟨by decide, by decide,
    (handler_runs_on_executing_line ⟨[], 0, ⟨0, 0⟩, ⟨0, 5000000⟩, []⟩ 1 keyboard_isr_ptr started
      (by decide) (by decide)).elim (fun s1 hs => by
        rw [hs.2.1
          (fun _ _ t =>
            { t with timer_counter := if (t.idt 1).state = IRQ_STATE_EXECUTING then 1 else 0 })]
        simp only
        rw [if_pos hs.2.2.2.1])⟩

/-- C21. A call of `register_isr`, `unregister_isr` or `dispatch_interrupt` on the line
`irq_num`, whether it succeeds or is rejected (index out of range, line executing,
line not dispatchable), and with handler code that leaves the table alone, leaves
every descriptor of another line unchanged in every field. -/
theorem other_lines_untouched (ts : CStr) (clk : dispatch_clock)
    (exec : isr_ptr → Int → Sys → Sys) (irq_num : Int) (h : Option isr_ptr) (d : CStr)
    (s : Sys) (j : Fin MAX_INTERRUPTS)
    (hexec : ∀ f n t, (exec f n t).idt = t.idt) (hj : (j.val : Int) ≠ irq_num) :
    (register_isr ts irq_num h d s).2.idt j = s.idt j
      ∧ (unregister_isr ts irq_num s).2.idt j = s.idt j
      ∧ (dispatch_interrupt exec clk irq_num s).idt j = s.idt j :=
  ⟨register_isr_other ts irq_num h d s j hj, unregister_isr_other ts irq_num s j hj,
    dispatch_interrupt_other exec hexec clk irq_num s j hj⟩

/-- C21, at a concrete input: a dispatch of the keyboard line of the started system
leaves the descriptor of the timer line as it is. -/
theorem other_lines_untouched_witness :
    (∀ f n t, (predefined_exec [] f n t).idt = t.idt)
      ∧ (((0 : Fin MAX_INTERRUPTS).val : Int) ≠ 1)
      ∧ (dispatch_interrupt (predefined_exec []) ⟨[], 0, ⟨0, 0⟩, ⟨0, 5000000⟩, []⟩ 1 started).idt 0
          = started.idt 0 :=
  ⟨predefined_exec_idt [], by decide,
    (other_lines_untouched [] ⟨[], 0, ⟨0, 0⟩, ⟨0, 5000000⟩, []⟩ (predefined_exec []) 1 none []
      started 0 (predefined_exec_idt []) (by decide)).2.2⟩

/-- C22. From an index within the ring (it is 0 when the program starts), after any
sequence of trace writes `trace_index` is within `[0, 100)`; so the slot the next
write fills, the slot `(trace_index - 1 + 100) % 100` the printing code reads back
(which is the slot just written), and every slot `show_recent_trace` reads are
subscripts within the array of 100 slots. The same holds after a write through
`add_trace_smart`. -/
theorem ring_accesses_in_bounds (ws : List trace_call) (s : Sys)
    (h0 : 0 ≤ s.trace_index) (h1 : s.trace_index < 100) :
    in_ring (trace_writes ws s).trace_index
      ∧ in_ring (last_slot (trace_writes ws s))
      ∧ (∀ idx ∈ recent_slots (trace_writes ws s), in_ring idx)
      ∧ (∀ w : trace_call, last_slot (w.run (trace_writes ws s)) = (trace_writes ws s).trace_index)
      ∧ (∀ (ts e : CStr) (n t : Int),
          in_ring (add_trace_smart ts e n t (trace_writes ws s)).trace_index
          ∧ last_slot (add_trace_smart ts e n t (trace_writes ws s))
              = (trace_writes ws s).trace_index) := by
  have hidx := (trace_writes_ring ws s h0 h1).1
  have hk0 : 0 ≤ (trace_writes ws s).trace_index := by rw [hidx]; omega
  have hk1 : (trace_writes ws s).trace_index < 100 := by rw [hidx]; omega
  generalize (trace_writes ws s) = s1 at hk0 hk1
  have hmod : ∀ a : Int, 0 ≤ a → Int.tmod a 100 = a % 100 :=
    fun a ha => Int.tmod_eq_emod ha (by omega)
  have hnext : Int.tmod (s1.trace_index + 1) MAX_TRACE_LINES = (s1.trace_index + 1) % 100 := by
    rw [MAX_TRACE_LINES]; exact hmod _ (by omega)
  have hback : Int.tmod (Int.tmod (s1.trace_index + 1) MAX_TRACE_LINES - 1 + MAX_TRACE_LINES)
      MAX_TRACE_LINES = s1.trace_index := by
    rw [hnext, MAX_TRACE_LINES, hmod _ (by omega)]; omega
  refine ⟨⟨hk0, hk1⟩, ?_, ?_, ?_, ?_⟩
  · unfold last_slot in_ring
    rw [MAX_TRACE_LINES, hmod _ (by omega)]
    omega
  · intro idx hidx
    unfold recent_slots at hidx
    simp only [List.mem_map, List.mem_range] at hidx
    obtain ⟨k, _, rfl⟩ := hidx
    unfold in_ring
    have hstart : 0 ≤ Int.tmod (s1.trace_index
        - (if s1.trace_index < 10 then s1.trace_index else 10) + MAX_TRACE_LINES)
        MAX_TRACE_LINES := by
      rw [MAX_TRACE_LINES, hmod _ (by split_ifs <;> omega)]
      omega
    rw [MAX_TRACE_LINES] at hstart ⊢
    rw [hmod _ (by omega)]
    omega
  · intro w
    unfold last_slot
    rw [(trace_call_run w s1).2]
    exact hback
  · intro ts e n t
    unfold last_slot in_ring
    rw [add_trace_smart_index]
    refine ⟨?_, hback⟩
    rw [hnext]; omega

/-- C22, at a concrete input: 101 writes after start-up. -/
theorem ring_accesses_in_bounds_witness :
    0 ≤ boot.trace_index ∧ boot.trace_index < 100
      ∧ in_ring (trace_writes writes_101 boot).trace_index
      ∧ in_ring (last_slot (trace_writes writes_101 boot)) :=
  ⟨by decide, by decide,
    (ring_accesses_in_bounds writes_101 boot (by decide) (by decide)).1,
    (ring_accesses_in_bounds writes_101 boot (by decide) (by decide)).2.1⟩

/-- C23. For timestamps `start ≤ end` with nanosecond fields in `[0, 10^9)`, the value
`(end.tv_sec - start.tv_sec) * 1000000 + (end.tv_nsec - start.tv_nsec) / 1000`
computed by `dispatch_interrupt` with C division is non-negative and lies between
the floor and the ceiling of `d / 1000`, where `d` is the elapsed time in
nanoseconds: it is the floor when the nanosecond field did not decrease and the
ceiling when it did. Being non-negative, it is converted to `unsigned long` without
wrapping around (for a value that fits the 64 bits). -/
theorem elapsed_time_bounds (start_time end_time : timespec)
    (hs0 : 0 ≤ start_time.tv_nsec) (hs1 : start_time.tv_nsec < 1000000000)
    (he0 : 0 ≤ end_time.tv_nsec) (he1 : end_time.tv_nsec < 1000000000)
    (hle : start_time.tv_sec < end_time.tv_sec
      ∨ (start_time.tv_sec = end_time.tv_sec ∧ start_time.tv_nsec ≤ end_time.tv_nsec)) :
    0 ≤ end_time.nanos - start_time.nanos
      ∧ 0 ≤ elapsed_long start_time end_time
      ∧ (end_time.nanos - start_time.nanos) / 1000 ≤ elapsed_long start_time end_time
      ∧ elapsed_long start_time end_time ≤ (end_time.nanos - start_time.nanos + 999) / 1000
      ∧ (start_time.tv_nsec ≤ end_time.tv_nsec →
          elapsed_long start_time end_time = (end_time.nanos - start_time.nanos) / 1000)
      ∧ (end_time.tv_nsec < start_time.tv_nsec →
          elapsed_long start_time end_time = (end_time.nanos - start_time.nanos + 999) / 1000)
      ∧ (elapsed_long start_time end_time < 18446744073709551616 →
          ((elapsed_us start_time end_time : Nat) : Int) = elapsed_long start_time end_time) := by
  obtain ⟨hpos, hneg⟩ := tdiv_1000 (end_time.tv_nsec - start_time.tv_nsec)
  have hnonneg : 0 ≤ elapsed_long start_time end_time := by
    unfold elapsed_long
    by_cases hn : 0 ≤ end_time.tv_nsec - start_time.tv_nsec
    · rw [hpos hn]; omega
    · rw [hneg (by omega)]; omega
  refine ⟨?_, hnonneg, ?_, ?_, ?_, ?_, ?_⟩
  · unfold timespec.nanos; omega
  · unfold elapsed_long timespec.nanos
    by_cases hn : 0 ≤ end_time.tv_nsec - start_time.tv_nsec
    · rw [hpos hn]; omega
    · rw [hneg (by omega)]; omega
  · unfold elapsed_long timespec.nanos
    by_cases hn : 0 ≤ end_time.tv_nsec - start_time.tv_nsec
    · rw [hpos hn]; omega
    · rw [hneg (by omega)]; omega
  · intro hn
    unfold elapsed_long timespec.nanos
    rw [hpos (by omega)]; omega
  · intro hn
    unfold elapsed_long timespec.nanos
    rw [hneg (by omega)]; omega
  · intro hfit
    exact elapsed_us_of_long start_time end_time hnonneg hfit

/-- C23, at a concrete input: from 1.999999999 s to 2.000000000 s, one nanosecond,
the code measures 1 microsecond, the ceiling. -/
theorem elapsed_time_bounds_witness :
    (0 ≤ clock_start.tv_nsec ∧ clock_start.tv_nsec < 1000000000)
      ∧ (0 ≤ clock_end.tv_nsec ∧ clock_end.tv_nsec < 1000000000)
      ∧ clock_start.tv_sec < clock_end.tv_sec
      ∧ clock_end.tv_nsec < clock_start.tv_nsec
      ∧ elapsed_long clock_start clock_end
          = (clock_end.nanos - clock_start.nanos + 999) / 1000 :=
  ⟨by decide, by decide, by decide, by decide,
    (elapsed_time_bounds clock_start clock_end (by decide) (by decide) (by decide) (by decide)
      (Or.inl (by decide))).2.2.2.2.2.1 (by decide)⟩

/-- C24. In every table reachable from `init_idt` by `register_isr`, `unregister_isr` and
`dispatch_interrupt` (as whole calls, or as their locked sections in any order), a
Free descriptor has no handler, call count 0, total execution time 0 and the
placeholder description `IRQ i - No asignado`; so `register_isr` followed by
`unregister_isr` on a Free line both succeed and return the whole descriptor table,
the last-call stamps included, to what it was before the two calls. -/
theorem free_lines_are_clean (ok : Option isr_ptr → Prop) (t : idt_t)
    (hr : (∃ s, Reachable ok s ∧ s.idt = t) ∨ table_reachable ok t)
    (i : Fin MAX_INTERRUPTS) (hfree : (t i).state = IRQ_STATE_FREE) :
    ((t i).isr = none ∧ (t i).call_count = 0 ∧ (t i).total_execution_time = 0
        ∧ (t i).description = cstr "IRQ " ++ fmt_d (i.val : Int) ++ cstr " - No asignado")
      ∧ (∀ (s : Sys) (ts1 ts2 : CStr) (h : Option isr_ptr) (d : CStr), s.idt = t →
          (register_isr ts1 (i.val : Int) h d s).1 = SUCCESS
          ∧ (unregister_isr ts2 (i.val : Int) (register_isr ts1 (i.val : Int) h d s).2).1 = SUCCESS
          ∧ (unregister_isr ts2 (i.val : Int) (register_isr ts1 (i.val : Int) h d s).2).2.idt
              = s.idt) := by
  have ht : table_reachable ok t := by
    rcases hr with ⟨s, hs, rfl⟩ | hr
    · exact Reachable.table ok s hs
    · exact hr
  have hclean := table_reachable.free_clean ok t ht i
  obtain ⟨c1, c2, c3, c4⟩ := hclean hfree
  refine ⟨⟨c1, c2, c3, by rw [c4, placeholder_text]⟩, ?_⟩
  intro s ts1 ts2 h d hs
  subst hs
  exact register_unregister_restores ts1 ts2 i h d s hfree hclean

/-- C24, at a concrete input: line 5 of the freshly initialised table, registered
with `custom_isr` and unregistered. -/
theorem free_lines_are_clean_witness :
    ((∃ s, Reachable (fun _ => True) s ∧ s.idt = (init_idt [] boot).idt)
        ∨ table_reachable (fun _ => True) (init_idt [] boot).idt)
      ∧ ((init_idt [] boot).idt 5).state = IRQ_STATE_FREE
      ∧ (unregister_isr [] ((5 : Fin MAX_INTERRUPTS).val : Int)
          (register_isr [] ((5 : Fin MAX_INTERRUPTS).val : Int) (some custom_isr_ptr)
            (cstr "ISR Personalizada 5") (init_idt [] boot)).2).2.idt
          = (init_idt [] boot).idt :=
  ⟨Or.inl ⟨_, Reachable.init [] boot, rfl⟩, by decide,
    ((free_lines_are_clean (fun _ => True) (init_idt [] boot).idt
      (Or.inl ⟨_, Reachable.init [] boot, rfl⟩) 5 (by decide)).2
      (init_idt [] boot) [] [] (some custom_isr_ptr) (cstr "ISR Personalizada 5") rfl).2.2⟩

end InterruptSimulator
